import Mathlib

/-!
# onnx2c: the C source emitter of `Graph` (src/graph_print.cc)

A shallow embedding of `src/graph_print.cc`.

* The output stream `std::ostream &dst` and the log sink of the `LOG(level)`
  statements are the two fields of `Out`; every `dst << x` appends to `Out.dst`,
  `std::endl` is the newline `endl`.
* `Tensor*` values are addresses (`Nat`); `Graph.mem` maps an address to the
  `Tensor` object stored there, so that the in-place write `t->isConst = false`
  of `print_interface_function` is seen through every alias of `t`.
* `ERROR(...)` aborts the emission: a function that can reach it returns a `Res`,
  whose `fatal` case carries the message and the state at the abort.
* `int` and `int32_t` values (`data_dim`, `union_no`) are `Int`, the loop counter
  `unsigned u` is a `Nat`: it counts the tensor unions, far fewer than 2^31, so that
  no arithmetic wraps and `static_cast<int32_t>(u)` keeps the value.
* The members of `Tensor`, `Node` and the ONNX model that graph_print.cc calls but
  does not define (`Tensor::print_tensor`, `Node::c_name`, ...) are the fields of
  `Externals`; every theorem holds for all of them.
-/

namespace toC

/-- The log levels used by the `LOG(...)` statements of graph_print.cc. -/
inductive LogLevel where
  | TRACE
  | WARNING
deriving DecidableEq, Repr

/-- Modelled from the spec: class `Tensor` (tensor.h is not under src/), with the
attributes of the spec's data model, all of which graph_print.cc reads.
`initialize_` is the member `initialize`. -/
structure Tensor where
  name : String
  data_dim : List Int
  generate : Bool
  initialize_ : Bool
  isConst : Bool
  isIO : Bool
  union_no : Int
deriving DecidableEq, Repr

/-- Modelled from the spec: class `Node` (node.h is not under src/). `inputs` is what
`get_number_of_inputs()` and `get_input_tensor(o)` enumerate: `inputs.length` tensor
pointers, `none` being the null pointer. -/
structure Node where
  op_name : String
  onnx_name : String
  inputs : List (Option Nat)
deriving DecidableEq, Repr

/-- Modelled from the spec: the ONNX model as far as graph_print.cc reads it.
`ir_version` is what `onnx_ir_version()` returns, `graph_input` are the names
`i.name()` of `model.graph().input()` in declared order. -/
structure Model where
  producer_name : String
  producer_version : String
  ir_version : Int
  doc_string : String
  graph_input : List String
deriving DecidableEq, Repr

/-- The global `options` object (options.h), as far as graph_print.cc reads it. -/
structure Options where
  target_avr : Bool
deriving DecidableEq, Repr

/-- Members of `Tensor` and `Node` that graph_print.cc calls and that are defined in
other translation units. Each writes text to `dst` and nothing else; the text is the
function's value here. The `Node` printers may read the tensors the node points to,
so they receive the memory. -/
structure Externals where
  print_tensor : Tensor → String
  print_tensor_as_const : Tensor → String
  print_tensor_initializer : Tensor → String
  print_trace_dump : Tensor → String
  c_name : Node → String
  print_function_parameters_definition : (Nat → Tensor) → Node → String
  print : (Nat → Tensor) → Node → String
  print_function_parameters_callsite : (Nat → Tensor) → Node → String

/-- class `Graph`: the tensor objects (`mem`), `std::vector<Tensor*> tensors`,
`tensor_unions` (only its size is read), `std::vector<Node*> nodes` and `model`. -/
structure Graph where
  mem : Nat → Tensor
  tensors : List Nat
  tensor_unions : List (List Nat)
  nodes : List Node
  model : Model

/-- The stream `dst` and the log. -/
structure Out where
  dst : String
  log : List (LogLevel × String)
deriving DecidableEq, Repr

/-- The value of `std::endl` as text. -/
def endl : String := "\n"

/-- Execute `dst << s`. -/
def Out.write (o : Out) (s : String) : Out :=
  { o with dst := o.dst ++ s }

/-- Modelled from the spec: `LOG(lvl) << msg` (the logging header is not under src/)
records the message `msg` at level `lvl`. -/
def Out.LOG (o : Out) (lvl : LogLevel) (msg : String) : Out :=
  { o with log := o.log ++ [(lvl, msg)] }

/-- Modelled from the spec: the macro `ERROR` (error.h is not under src/) raises a fatal
internal error that aborts the compilation at once. A function that may reach
`ERROR(msg)` has as result the state it returns with, or the message and the state at
the abort. -/
inductive Res (σ : Type) where
  | ok : σ → Res σ
  | fatal : String → σ → Res σ
deriving DecidableEq, Repr

/-- Sequencing: run `f` on the state unless the emission was aborted. -/
def Res.andThen {σ : Type} (r : Res σ) (f : σ → Res σ) : Res σ :=
  match r with
  | .ok s => f s
  | .fatal m s => .fatal m s

/-- The state a result carries. -/
def Res.state {σ : Type} : Res σ → σ
  | .ok s => s
  | .fatal _ s => s

/-- Whether the emission was aborted. -/
def Res.isFatal {σ : Type} : Res σ → Bool
  | .ok _ => false
  | .fatal _ _ => true

/-- A range-based `for` loop whose body may abort. -/
def forEach {α σ : Type} (body : α → σ → Res σ) : List α → σ → Res σ
  | [], s => .ok s
  | x :: xs, s => (body x s).andThen (forEach body xs)

/-- Modelled from the spec: `Graph::findTensor` (graph.cc is not under src/):
"resolve the corresponding Tensor by name"; the first tensor of the list with that name,
null when there is none. -/
def Graph.findTensor (g : Graph) (name : String) : Option Nat :=
  g.tensors.find? (fun p => (g.mem p).name = name)

/-- Modelled from the spec: `Graph::findNodeByName` (graph.cc is not under src/):
"located by name lookup"; the first node of the list with that name, null when there
is none. -/
def Graph.findNodeByName (g : Graph) (name : String) : Option Node :=
  g.nodes.find? (fun n => n.onnx_name = name)

/-- `Graph::print_file_frontmatter`. -/
def Graph.print_file_frontmatter (g : Graph) (out : Out) : Out :=
  let out := out.write ("// This file is computer-generated by onnx2c " ++ endl)
  let out := out.write ("// (TODO: add creating command line here)" ++ endl)
  let out := out.write ("// (TODO: print creation date here )" ++ endl)
  let out := out.write endl
  let out := out.write ("// ONNX model:" ++ endl)
  let out := out.write ("// produced by " ++ g.model.producer_name)
  let out := out.write (", version " ++ g.model.producer_version ++ endl)
  let out := out.write ("// ONNX IR version: " ++ toString g.model.ir_version ++ endl)
  let out := out.write ("// Model documentation: " ++ endl)
  out.write ("/*" ++ endl ++ g.model.doc_string ++ endl ++ "*/" ++ endl)

/-- `Graph::print_header`. -/
def Graph.print_header (g : Graph) (out : Out) : Out :=
  g.print_file_frontmatter out

/-- `Graph::print_tensor(const Tensor *t, std::ostream &dst)`; `t` is the object
pointed to. -/
def Graph.print_tensor (ext : Externals) (opts : Options) (t : Tensor) (out : Out) :
    Res Out :=
  if t.generate = false then .ok out
  else if t.name = "" then .ok out
  else if t.data_dim.length = 0 then .fatal "Tensor of no dimensions?" out
  else if t.data_dim.length = 1 ∧ t.data_dim.head? = some 0 then
    .ok (out.LOG .WARNING ("Tensor " ++ t.name ++ " has size of 0. Skipping it" ++ endl))
  else
    let out := if t.union_no < 0 then out.write "static " else out
    let out := out.write (ext.print_tensor t)
    let out :=
      if t.initialize_ = true then
        let out := if opts.target_avr = true ∧ t.isConst = true then out.write " PROGMEM" else out
        let out := out.write (" = " ++ endl)
        out.write (ext.print_tensor_initializer t)
      else out
    .ok (out.write (";" ++ endl))

/-- Body of the first loop of `Graph::print_global_tensors` (ununionized tensors). -/
def Graph.print_global_tensors_standalone (ext : Externals) (opts : Options) (g : Graph)
    (p : Nat) (out : Out) : Res Out :=
  let t := g.mem p
  let out := out.LOG .TRACE ("\t" ++ ext.print_trace_dump t ++ endl)
  if t.union_no < 0 ∧ t.generate = true then Graph.print_tensor ext opts t out
  else .ok out

/-- Body of the inner loop of `Graph::print_global_tensors`: the members of union `u`.
`static_cast<int32_t>(u)` is the value of `u`: a vector of tensor unions has far fewer
than 2^31 entries. -/
def Graph.print_global_tensors_member (ext : Externals) (opts : Options) (g : Graph)
    (u : Nat) (p : Nat) (out : Out) : Res Out :=
  let t := g.mem p
  if t.union_no = (u : Int) then Graph.print_tensor ext opts t out
  else .ok out

/-- Body of the second loop of `Graph::print_global_tensors`: the block of union `u`. -/
def Graph.print_global_tensors_union (ext : Externals) (opts : Options) (g : Graph)
    (u : Nat) (out : Out) : Res Out :=
  let out := out.write ("union tensor_union_" ++ toString u ++ " \x7b" ++ endl)
  (forEach (Graph.print_global_tensors_member ext opts g u) g.tensors out).andThen fun out =>
    let out := out.write ("\x7d;" ++ endl)
    .ok (out.write ("static union tensor_union_" ++ toString u ++ " tu" ++ toString u
      ++ ";" ++ endl ++ endl))

/-- `Graph::print_global_tensors`. -/
def Graph.print_global_tensors (ext : Externals) (opts : Options) (g : Graph) (out : Out) :
    Res Out :=
  let out := out.LOG .TRACE ("printing global tensors - ununionized " ++ endl)
  (forEach (Graph.print_global_tensors_standalone ext opts g) g.tensors out).andThen fun out =>
    let out := out.LOG .TRACE ("printing global tensors - unionized " ++ endl)
    (forEach (Graph.print_global_tensors_union ext opts g)
      (List.range g.tensor_unions.length) out).andThen fun out =>
      .ok (out.LOG .TRACE ("(done printing global tensors)" ++ endl))

/-- Body of the loop of `Graph::print_functions`. -/
def Graph.print_functions_node (ext : Externals) (g : Graph) (out : Out) (n : Node) : Out :=
  if n.op_name = "graph_io" then out
  else
    let out := out.write ("/*" ++ endl)
    let out := out.write (" * Operand:           " ++ n.op_name ++ endl)
    let out := out.write (" * Name in ONNX file: " ++ n.onnx_name ++ endl)
    let out := out.write (" */" ++ endl)
    let out := out.write "FUNC_PREFIX void "
    let out := out.write (ext.c_name n ++ "( ")
    let out := out.write (ext.print_function_parameters_definition g.mem n)
    let out := out.write " )"
    let out := out.write (endl ++ "\x7b" ++ endl)
    let out := out.write (ext.print g.mem n)
    out.write ("\x7d" ++ endl ++ endl)

/-- `Graph::print_functions`. -/
def Graph.print_functions (ext : Externals) (g : Graph) (out : Out) : Out :=
  g.nodes.foldl (Graph.print_functions_node ext g) out

/-- `Graph::print_includes`. -/
def Graph.print_includes (opts : Options) (out : Out) : Out :=
  let out := out.write ("#include <float.h>" ++ endl)
  let out := out.write ("#include <math.h>" ++ endl)
  let out := out.write ("#include <stdbool.h>" ++ endl)
  let out := out.write ("#include <stdint.h>" ++ endl)
  let out := out.write ("#include <string.h>" ++ endl)
  let out := out.write endl
  let out := out.write ("#define MAX(X,Y) ( X > Y ? X : Y)" ++ endl)
  let out := out.write ("#define MIN(X,Y) ( X < Y ? X : Y)" ++ endl)
  let out := out.write ("#define CLIP(X,L) ( MAX(MIN(X,L), -L) )" ++ endl)
  let out := out.write endl
  let out := out.write ("#if __STDC_VERSION__ < 199901L" ++ endl)
  let out := out.write ("#define FUNC_PREFIX" ++ endl)
  let out := out.write ("#else" ++ endl)
  let out := out.write ("#define FUNC_PREFIX static inline" ++ endl)
  let out := out.write ("#endif" ++ endl)
  if opts.target_avr = true then
    let out := out.write ("#include <avr/pgmspace.h>" ++ endl)
    out.write ("#define RD_PROGMEM(x) pgm_read_byte(&(x));" ++ endl)
  else out

/-- The separator logic shared by both parameter loops of
`Graph::print_interface_function`: `if(!isfirst) dst << ", "; else isfirst = false;`.
The flag is false afterwards in either case. -/
def separator (isfirst : Bool) (out : Out) : Out :=
  if isfirst = false then out.write ", " else out

/-- Body of the first loop of `Graph::print_interface_function`: one declared model
input named `i`. The loop state is `isfirst` and the stream. -/
def Graph.print_interface_function_input (ext : Externals) (g : Graph)
    (st : Bool × Out) (i : String) : Bool × Out :=
  match g.findTensor i with
  | some p =>
    if Tensor.isIO (g.mem p) = true then
      (false, (separator st.1 st.2).write (ext.print_tensor_as_const (g.mem p)))
    else st
  | none => st

/-- The write `t->isConst = false` through the pointer `p`. -/
def clearConst (mem : Nat → Tensor) (p : Nat) : Nat → Tensor :=
  fun q => if q = p then { mem q with isConst := false } else mem q

/-- Body of the second loop of `Graph::print_interface_function`: the input
`get_input_tensor(o)` of the graph_output node. The loop state is `isfirst`, the
tensor memory and the stream. -/
def Graph.print_interface_function_output (ext : Externals)
    (st : Bool × (Nat → Tensor) × Out) (o : Option Nat) : Bool × (Nat → Tensor) × Out :=
  match o with
  | some p =>
    let out := separator st.1 st.2.2
    let mem := clearConst st.2.1 p
    (false, mem, out.write (ext.print_tensor (mem p)))
  | none => st

/-- Body of the third loop of `Graph::print_interface_function`: the call of one node. -/
def Graph.print_interface_function_call (ext : Externals) (mem : Nat → Tensor)
    (out : Out) (n : Node) : Out :=
  if n.op_name = "graph_io" then out
  else
    let out := out.write ("\t" ++ ext.c_name n ++ "( ")
    let out := out.write (ext.print_function_parameters_callsite mem n)
    out.write (");" ++ endl)

/-- `Graph::print_interface_function(std::ostream &dst, bool definition)`. The state
is the graph (its tensors are written to) and the stream. -/
def Graph.print_interface_function (ext : Externals) (g : Graph) (definition : Bool)
    (out : Out) : Res (Graph × Out) :=
  let isfirst := true
  let out := out.write "void entry("
  let st := g.model.graph_input.foldl (Graph.print_interface_function_input ext g) (isfirst, out)
  match g.findNodeByName "graph_output" with
  | none => .fatal "internal onnx2c error: no graph_output node" (g, st.2)
  | some graph_out_node =>
    let st := graph_out_node.inputs.foldl (Graph.print_interface_function_output ext)
      (st.1, g.mem, st.2)
    let g := { g with mem := st.2.1 }
    let out := st.2.2.write ")"
    if definition = false then .ok (g, out.write (";" ++ endl))
    else
      let out := out.write ("\x7b" ++ endl)
      let out := g.nodes.foldl (Graph.print_interface_function_call ext g.mem) out
      .ok (g, out.write ("\x7d" ++ endl))

/-- `Graph::print_source`. `definition` is the default argument of
`print_interface_function`, declared in graph.h (not under src/). -/
def Graph.print_source (ext : Externals) (opts : Options) (definition : Bool) (g : Graph)
    (out : Out) : Res (Graph × Out) :=
  let out := g.print_file_frontmatter out
  let out := out.write endl
  let out := Graph.print_includes opts out
  let out := out.write endl
  match Graph.print_global_tensors ext opts g out with
  | .fatal m out => .fatal m (g, out)
  | .ok out =>
    let out := out.write endl
    let out := Graph.print_functions ext g out
    let out := out.write endl
    Graph.print_interface_function ext g definition out


/-! ## Specification side: the text the emitter is to write -/

/-- The tensor is one `Graph::print_tensor` stops on: it must be generated, has a
name, and no dimensions. -/
def Tensor.dimensionless (t : Tensor) : Prop :=
  t.generate = true ∧ t.name ≠ "" ∧ t.data_dim = []

instance (t : Tensor) : Decidable t.dimensionless := by
  unfold Tensor.dimensionless; infer_instance

/-- The tensor is one `Graph::print_tensor` writes nothing for: not generated,
anonymous, or of shape `[0]`. -/
def Tensor.skipped (t : Tensor) : Prop :=
  t.generate = false ∨ t.name = "" ∨ t.data_dim = [0]

instance (t : Tensor) : Decidable t.skipped := by
  unfold Tensor.skipped; infer_instance

/-- The declaration of a tensor without its storage qualifier: the tensor's own
declaration, the initializer part when `initialize` is set (with the program-memory
qualifier for a constant on a microcontroller target), and the terminator. -/
def declaration (ext : Externals) (opts : Options) (t : Tensor) : String :=
  ext.print_tensor t
    ++ (if t.initialize_ = true then
          (if opts.target_avr = true ∧ t.isConst = true then " PROGMEM" else "")
            ++ (" = " ++ endl) ++ ext.print_tensor_initializer t
        else "")
    ++ (";" ++ endl)

/-- The text `Graph::print_tensor` is to write for a tensor it does not stop on. -/
def rendering (ext : Externals) (opts : Options) (t : Tensor) : String :=
  if t.skipped then ""
  else (if t.union_no < 0 then "static " else "") ++ declaration ext opts t

/-- The log records `Graph::print_tensor` is to add for a tensor it does not stop on. -/
def warnings (t : Tensor) : List (LogLevel × String) :=
  if t.generate = true ∧ t.name ≠ "" ∧ t.data_dim = [0] then
    [(LogLevel.WARNING, "Tensor " ++ t.name ++ " has size of 0. Skipping it" ++ endl)]
  else []

/-- The text `Graph::print_tensor` does write for a tensor, on a fresh stream. -/
def written (ext : Externals) (opts : Options) (t : Tensor) : String :=
  (Graph.print_tensor ext opts t ⟨"", []⟩).state.dst

/-- The tensors declared on their own, in the order of the tensor list: generated,
named, in no union, and not of shape `[0]`. -/
def Graph.standalone (g : Graph) : List Nat :=
  g.tensors.filter fun p =>
    decide ((g.mem p).generate = true ∧ (g.mem p).name ≠ "" ∧ (g.mem p).union_no < 0
      ∧ (g.mem p).data_dim ≠ [0])

/-- The standalone declarations. -/
def standalone_section (ext : Externals) (opts : Options) (g : Graph) : String :=
  String.join (g.standalone.map fun p => "static " ++ declaration ext opts (g.mem p))

/-- The tensors whose `union_no` is `u`, in the order of the tensor list. -/
def Graph.members (g : Graph) (u : Nat) : List Nat :=
  g.tensors.filter fun p => decide ((g.mem p).union_no = (u : Int))

/-- The block of union `u` and its instance declaration. -/
def union_block (ext : Externals) (opts : Options) (g : Graph) (u : Nat) : String :=
  ("union tensor_union_" ++ toString u ++ " \x7b" ++ endl)
    ++ String.join ((g.members u).map fun p => rendering ext opts (g.mem p))
    ++ ("\x7d;" ++ endl)
    ++ ("static union tensor_union_" ++ toString u ++ " tu" ++ toString u ++ ";" ++ endl ++ endl)

/-- The blocks of all unions, by increasing index. -/
def union_section (ext : Externals) (opts : Options) (g : Graph) : String :=
  String.join ((List.range g.tensor_unions.length).map (union_block ext opts g))

/-- No tensor that `Graph::print_global_tensors` passes on to `Graph::print_tensor` is
dimensionless: every rendered tensor has a non-empty `data_dim`. -/
def Graph.dimensioned (g : Graph) : Prop :=
  ∀ p ∈ g.tensors, (g.mem p).generate = true → (g.mem p).name ≠ "" →
    (g.mem p).union_no < (g.tensor_unions.length : Int) → (g.mem p).data_dim ≠ []

/-- The definition of the function of one node: comment, signature, body in braces,
blank line. -/
def function_definition (ext : Externals) (mem : Nat → Tensor) (n : Node) : String :=
  ("/*" ++ endl)
    ++ (" * Operand:           " ++ n.op_name ++ endl)
    ++ (" * Name in ONNX file: " ++ n.onnx_name ++ endl)
    ++ (" */" ++ endl)
    ++ "FUNC_PREFIX void "
    ++ (ext.c_name n ++ "( ")
    ++ ext.print_function_parameters_definition mem n
    ++ " )"
    ++ (endl ++ "\x7b" ++ endl)
    ++ ext.print mem n
    ++ ("\x7d" ++ endl ++ endl)

/-- The nodes that are no meta-nodes, in the order of the node list. -/
def Graph.computation_nodes (g : Graph) : List Node :=
  g.nodes.filter fun n => decide (n.op_name ≠ "graph_io")

/-- The read-only parameter of the declared model input `i`, if it has one: its name
resolves to a tensor with `isIO` set. -/
def input_param (ext : Externals) (g : Graph) (i : String) : Option String :=
  match g.findTensor i with
  | some p => if Tensor.isIO (g.mem p) = true then some (ext.print_tensor_as_const (g.mem p)) else none
  | none => none

/-- The input half of the parameters of the entry function. -/
def input_params (ext : Externals) (g : Graph) : List String :=
  g.model.graph_input.filterMap (input_param ext g)

/-- The non-null input tensors of a node, in order. -/
def Node.outputs (n : Node) : List Nat :=
  n.inputs.filterMap id

/-- The output half of the parameters of the entry function: the plain rendering of
every non-null input tensor of the graph_output node `n`, its const flag cleared. -/
def output_params (ext : Externals) (mem : Nat → Tensor) (n : Node) : List String :=
  n.outputs.map fun p => ext.print_tensor { mem p with isConst := false }

/-- The signature of the entry function. -/
def signature (ext : Externals) (g : Graph) (n : Node) : String :=
  "void entry(" ++ ", ".intercalate (input_params ext g ++ output_params ext g.mem n) ++ ")"

/-- The memory after the const flag of every tensor of `ps` was cleared. -/
def clearConsts (mem : Nat → Tensor) (ps : List Nat) : Nat → Tensor :=
  fun q => if q ∈ ps then { mem q with isConst := false } else mem q

/-- The call statement of one node. -/
def call_statement (ext : Externals) (mem : Nat → Tensor) (n : Node) : String :=
  ("\t" ++ ext.c_name n ++ "( ") ++ ext.print_function_parameters_callsite mem n
    ++ (");" ++ endl)

/-- The text after the signature of the entry function: the terminator of a
declaration, or the body of a definition. -/
def entry_tail (ext : Externals) (mem : Nat → Tensor) (nodes : List Node)
    (definition : Bool) : String :=
  if definition = false then ";" ++ endl
  else ("\x7b" ++ endl)
    ++ String.join ((nodes.filter fun n => decide (n.op_name ≠ "graph_io")).map
        (call_statement ext mem))
    ++ ("\x7d" ++ endl)

/-- The parameters `rs` with their separators, as a loop writes them that starts with
the flag `isfirst`. -/
def separated (isfirst : Bool) (rs : List String) : String :=
  if isfirst = true then ", ".intercalate rs else String.join (rs.map fun r => ", " ++ r)

/-! ## Concrete inputs -/

/-- Renderers in the style of onnx2c: a float tensor of its shape's first dimension,
`const` when the tensor is constant. -/
def demo_ext : Externals where
  print_tensor := fun t => (if t.isConst = true then "const " else "") ++ "float " ++ t.name
    ++ "[" ++ toString (t.data_dim.headD 0) ++ "]"
  print_tensor_as_const := fun t => "const float " ++ t.name
    ++ "[" ++ toString (t.data_dim.headD 0) ++ "]"
  print_tensor_initializer := fun _ => "\x7b0\x7d"
  print_trace_dump := fun t => t.name
  c_name := fun n => "node_" ++ n.onnx_name
  print_function_parameters_definition := fun _ _ => "const float x[1], float y[1]"
  print := fun _ _ => "\ty[0] = x[0];\n"
  print_function_parameters_callsite := fun _ n => String.intercalate ", "
    (n.inputs.map fun o => match o with
      | some p => "t" ++ toString p
      | none => "NULL")

/-- Renderers that do not look at the const flag of a tensor. -/
def blind_ext : Externals where
  print_tensor := fun t => "float " ++ t.name ++ "[1]"
  print_tensor_as_const := fun t => "const float " ++ t.name ++ "[1]"
  print_tensor_initializer := fun _ => "\x7b0\x7d"
  print_trace_dump := fun t => t.name
  c_name := fun n => "node_" ++ n.onnx_name
  print_function_parameters_definition := fun _ _ => ""
  print := fun _ _ => ""
  print_function_parameters_callsite := fun _ _ => ""

/-- A declared input that is part of the interface. -/
def demo_a : Tensor :=
  { name := "a", data_dim := [1], generate := true, initialize_ := false, isConst := false,
    isIO := true, union_no := -1 }

/-- A declared input that is not part of the interface; member of union 0. -/
def demo_b : Tensor :=
  { name := "b", data_dim := [1], generate := true, initialize_ := false, isConst := false,
    isIO := false, union_no := 0 }

/-- A constant tensor with an initializer that is the graph's output. -/
def demo_c : Tensor :=
  { name := "c", data_dim := [1], generate := true, initialize_ := true, isConst := true,
    isIO := false, union_no := -1 }

/-- A tensor of shape `[0]`, member of union 0. -/
def demo_z : Tensor :=
  { name := "z", data_dim := [0], generate := true, initialize_ := true, isConst := true,
    isIO := false, union_no := 0 }

/-- A generated, named tensor without dimensions. -/
def demo_d : Tensor :=
  { name := "d", data_dim := [], generate := true, initialize_ := false, isConst := false,
    isIO := false, union_no := -1 }

/-- The tensor objects of the demo graphs, by address. -/
def demo_mem : Nat → Tensor
  | 0 => demo_a
  | 1 => demo_b
  | 2 => demo_c
  | 3 => demo_z
  | _ => demo_d

/-- The model of the demo graphs: declared inputs `a`, `b` and one that does not
resolve. -/
def demo_model : Model :=
  { producer_name := "pytorch", producer_version := "1.0", ir_version := 7, doc_string := "",
    graph_input := ["a", "b", "missing"] }

/-- A computation node. -/
def demo_relu : Node :=
  { op_name := "Relu", onnx_name := "relu0", inputs := [some 0] }

/-- The graph_output meta-node: the output `c` and a null input. -/
def demo_sink : Node :=
  { op_name := "graph_io", onnx_name := "graph_output", inputs := [some 2, none] }

/-- A graph with inputs `a`, `b`, a zero-sized tensor `z`, the constant output `c`, one
union, one computation node and the graph_output node. -/
def demo_graph : Graph :=
  { mem := demo_mem, tensors := [0, 1, 3, 2], tensor_unions := [[1, 3]],
    nodes := [demo_relu, demo_sink], model := demo_model }

/-- The demo graph without the zero-sized tensor. -/
def demo_graph_nz : Graph :=
  { demo_graph with tensors := [0, 1, 2] }

/-- The demo graph without its graph_output node. -/
def demo_graph_nosink : Graph :=
  { demo_graph with nodes := [demo_relu] }

/-- The demo graph after the const flag of its output was cleared. -/
def demo_graph_cleared : Graph :=
  { demo_graph with mem := clearConsts demo_mem [2] }

/-- A fresh stream. -/
def fresh : Out := ⟨"", []⟩

/-! ## Specification side: outcomes and the preamble -/

/-- Two results agree in what an observer of the stream sees: both runs were aborted
or neither was, and the same text was written. -/
def Res.same (r₁ r₂ : Res Out) : Prop :=
  r₁.isFatal = r₂.isFatal ∧ r₁.state.dst = r₂.state.dst

/-- The preamble of a generic target: five standard includes, the macros MAX, MIN and
CLIP, and the conditional macro FUNC_PREFIX. -/
def generic_preamble : String :=
  "#include <float.h>\n#include <math.h>\n#include <stdbool.h>\n#include <stdint.h>\n"
    ++ "#include <string.h>\n\n"
    ++ "#define MAX(X,Y) ( X > Y ? X : Y)\n#define MIN(X,Y) ( X < Y ? X : Y)\n"
    ++ "#define CLIP(X,L) ( MAX(MIN(X,L), -L) )\n\n"
    ++ "#if __STDC_VERSION__ < 199901L\n#define FUNC_PREFIX\n#else\n"
    ++ "#define FUNC_PREFIX static inline\n#endif\n"

/-- The two lines a microcontroller target adds: the program-memory include and the
macro RD_PROGMEM. -/
def avr_preamble : String :=
  "#include <avr/pgmspace.h>\n#define RD_PROGMEM(x) pgm_read_byte(&(x));\n"

/-- The text `s` occurs in the text `t`. -/
def occurs_in (s t : String) : Prop :=
  s.data <:+: t.data

instance (s t : String) : Decidable (occurs_in s t) := by
  unfold occurs_in; infer_instance

/-- The opening line of the block of union `u`. -/
def union_open (u : Nat) : String :=
  "union tensor_union_" ++ toString u ++ " \x7b" ++ endl

/-- The closing line of the block of union `u` and its instance declaration. -/
def union_close (u : Nat) : String :=
  ("\x7d;" ++ endl)
    ++ ("static union tensor_union_" ++ toString u ++ " tu" ++ toString u ++ ";" ++ endl ++ endl)

/-! ## More concrete inputs -/

/-- A generated, named tensor without dimensions whose union, 5, does not exist. -/
def demo_far : Tensor :=
  { demo_d with union_no := 5 }

/-- The demo graph with `demo_far` in its tensor list, at address 9. -/
def demo_graph_far : Graph :=
  { demo_graph with
    mem := fun p => if p = 9 then demo_far else demo_mem p
    tensors := [0, 9, 1, 3, 2] }

/-- The demo graph with two unions and, at address 9, a generated, named tensor
without dimensions that is a member of union 0. -/
def demo_graph_broken : Graph :=
  { demo_graph with
    mem := fun p => if p = 9 then { demo_d with union_no := 0 } else demo_mem p
    tensors := [0, 9, 1, 3, 2]
    tensor_unions := [[9, 1, 3], []] }

/-- The demo graph with a second union, which has no member, and a third, whose one
member is not generated. -/
def demo_graph_empty_unions : Graph :=
  { demo_graph with
    mem := fun p => if p = 9 then { demo_b with generate := false, union_no := 2 } else demo_mem p
    tensors := [0, 9, 1, 3, 2]
    tensor_unions := [[1, 3], [], [9]] }

/-! ## Text: joins and separators -/

theorem join_nil : String.join [] = "" := rfl

theorem join_cons (a : String) (l : List String) :
    String.join (a :: l) = a ++ String.join l := by
  apply String.ext
  simp [String.join_eq]

theorem join_append (l₁ l₂ : List String) :
    String.join (l₁ ++ l₂) = String.join l₁ ++ String.join l₂ := by
  induction l₁ with
  | nil => simp [join_nil]
  | cons a l ih => rw [List.cons_append, join_cons, join_cons, ih, String.append_assoc]

/-- A join in which the entries failing `c` are empty is the join of the others. -/
theorem join_map_ite {α : Type} (c : α → Prop) [DecidablePred c] (f : α → String)
    (l : List α) :
    String.join (l.map fun x => if c x then f x else "") =
      String.join ((l.filter fun x => decide (c x)).map f) := by
  induction l with
  | nil => rfl
  | cons a l ih =>
    by_cases h : c a
    · simp only [List.map_cons, join_cons, ih, h, if_true, List.filter_cons, decide_True]
    · simp only [List.map_cons, join_cons, ih, h, if_false, List.filter_cons, decide_False,
        String.empty_append]
      rfl

theorem intercalate_go (acc s : String) (l : List String) :
    String.intercalate.go acc s l = acc ++ String.join (l.map fun a => s ++ a) := by
  induction l generalizing acc with
  | nil => simp [String.intercalate.go, join_nil]
  | cons a l ih =>
    simp only [String.intercalate.go, ih, List.map_cons, join_cons, String.append_assoc]

theorem intercalate_cons (s a : String) (l : List String) :
    s.intercalate (a :: l) = a ++ String.join (l.map fun b => s ++ b) := by
  simp only [String.intercalate, intercalate_go]

/-! ## One tensor -/

theorem length_one_head_zero (l : List Int) :
    (l.length = 1 ∧ l.head? = some 0) ↔ l = [0] := by
  constructor
  · rintro ⟨h1, h2⟩
    match l, h1, h2 with
    | [a], _, h2 => simp at h2; simp [h2]
  · rintro rfl; simp

/-- `Graph::print_tensor` stops on the dimensionless tensors, at once. -/
theorem print_tensor_fatal (ext : Externals) (opts : Options) (t : Tensor) (out : Out)
    (h : t.dimensionless) :
    Graph.print_tensor ext opts t out = .fatal "Tensor of no dimensions?" out := by
  obtain ⟨h1, h2, h3⟩ := h
  simp [Graph.print_tensor, h1, h2, h3]

/-- On every other tensor `Graph::print_tensor` returns, having appended `rendering`
to the stream and `warnings` to the log. -/
theorem print_tensor_ok (ext : Externals) (opts : Options) (t : Tensor) (out : Out)
    (h : ¬ t.dimensionless) :
    Graph.print_tensor ext opts t out =
      .ok ⟨out.dst ++ rendering ext opts t, out.log ++ warnings t⟩ := by
  unfold Graph.print_tensor rendering warnings Tensor.skipped declaration
  by_cases h1 : t.generate = false
  · simp [h1]
  by_cases h2 : t.name = ""
  · simp [h2]
  have h1t : t.generate = true := by simpa using h1
  have h3 : t.data_dim ≠ [] := fun h3 => h ⟨h1t, h2, h3⟩
  have h3l : ¬ t.data_dim.length = 0 := by simpa using h3
  rw [if_neg h1, if_neg h2, if_neg h3l]
  by_cases h4 : t.data_dim = [0]
  · simp [h4, h1t, h2, Out.LOG]
  have h4l : ¬ (t.data_dim.length = 1 ∧ t.data_dim.head? = some 0) := by
    rw [length_one_head_zero]; exact h4
  rw [if_neg h4l]
  simp only [h1t, h2, h4, or_self, if_false, ne_eq, not_false_eq_true, and_false, and_true,
    Bool.true_eq_false, List.append_nil]
  by_cases h5 : t.union_no < 0 <;> by_cases h6 : t.initialize_ = true <;>
    by_cases h7 : opts.target_avr = true ∧ t.isConst = true <;>
    simp [h5, h6, h7, Out.write, String.append_assoc]

/-- What `Graph::print_tensor` writes on a fresh stream is `rendering`. -/
theorem written_eq (ext : Externals) (opts : Options) (t : Tensor) (h : ¬ t.dimensionless) :
    written ext opts t = rendering ext opts t := by
  simp [written, print_tensor_ok ext opts t _ h, Res.state]

/-! ## Loops -/

/-- A loop whose body always returns, appending `txt x` to the stream, returns and
has appended the texts of all elements in order. -/
theorem forEach_ok {α : Type} (body : α → Out → Res Out) (txt : α → String) (xs : List α)
    (h : ∀ x ∈ xs, ∀ out, ∃ out', body x out = .ok out' ∧ out'.dst = out.dst ++ txt x) :
    ∀ out, ∃ out', forEach body xs out = .ok out' ∧
      out'.dst = out.dst ++ String.join (xs.map txt) := by
  induction xs with
  | nil => intro out; exact ⟨out, rfl, by simp [join_nil]⟩
  | cons x xs ih =>
    intro out
    obtain ⟨o1, e1, d1⟩ := h x (List.mem_cons_self _ _) out
    obtain ⟨o2, e2, d2⟩ := ih (fun y hy => h y (List.mem_cons_of_mem _ hy)) o1
    refine ⟨o2, ?_, ?_⟩
    · simp only [forEach, e1, Res.andThen, e2]
    · rw [d2, d1, List.map_cons, join_cons, String.append_assoc]

/-- A loop that cannot abort, whose body appends `txt x` to the stream and leaves the
log alone, appends the texts of all elements in order. -/
theorem foldl_write {α : Type} (step : Out → α → Out) (txt : α → String)
    (h : ∀ out x, step out x = out.write (txt x)) (xs : List α) (out : Out) :
    xs.foldl step out = out.write (String.join (xs.map txt)) := by
  induction xs generalizing out with
  | nil => simp [join_nil, Out.write]
  | cons x xs ih =>
    rw [List.foldl_cons, ih, h, List.map_cons, join_cons]
    simp [Out.write, String.append_assoc]

/-! ## The global tensors -/

theorem standalone_loop (ext : Externals) (opts : Options) (g : Graph)
    (h : g.dimensioned) (out : Out) :
    ∃ out', forEach (Graph.print_global_tensors_standalone ext opts g) g.tensors out = .ok out'
      ∧ out'.dst = out.dst ++ standalone_section ext opts g := by
  have key := forEach_ok (Graph.print_global_tensors_standalone ext opts g)
    (fun p => if (g.mem p).generate = true ∧ (g.mem p).name ≠ "" ∧ (g.mem p).union_no < 0
      ∧ (g.mem p).data_dim ≠ [0] then "static " ++ declaration ext opts (g.mem p) else "")
    g.tensors ?_ out
  · rw [join_map_ite] at key
    exact key
  · intro p hp o
    unfold Graph.print_global_tensors_standalone
    by_cases hc : (g.mem p).union_no < 0 ∧ (g.mem p).generate = true
    · have hnd : ¬ (g.mem p).dimensionless := by
        rintro ⟨h1, h2, h3⟩
        exact h p hp h1 h2 (lt_of_lt_of_le hc.1 (Int.ofNat_nonneg _)) h3
      simp only [hc, and_self, if_true, print_tensor_ok ext opts _ _ hnd]
      refine ⟨_, rfl, ?_⟩
      simp only [Out.LOG, rendering, Tensor.skipped, hc]
      by_cases hn : (g.mem p).name = "" <;> by_cases hd : (g.mem p).data_dim = [0] <;>
        simp [hn, hd]
    · rw [if_neg hc]
      refine ⟨_, rfl, ?_⟩
      have : ¬ ((g.mem p).generate = true ∧ (g.mem p).name ≠ "" ∧ (g.mem p).union_no < 0
          ∧ (g.mem p).data_dim ≠ [0]) := fun hh => hc ⟨hh.2.2.1, hh.1⟩
      simp only [Out.LOG, this, if_false, String.append_empty]

theorem member_loop (ext : Externals) (opts : Options) (g : Graph) (h : g.dimensioned)
    (u : Nat) (hu : u < g.tensor_unions.length) (out : Out) :
    ∃ out', forEach (Graph.print_global_tensors_member ext opts g u) g.tensors out = .ok out'
      ∧ out'.dst = out.dst
          ++ String.join ((g.members u).map fun p => rendering ext opts (g.mem p)) := by
  have key := forEach_ok (Graph.print_global_tensors_member ext opts g u)
    (fun p => if (g.mem p).union_no = (u : Int) then rendering ext opts (g.mem p) else "")
    g.tensors ?_ out
  · rw [join_map_ite] at key
    exact key
  · intro p hp o
    unfold Graph.print_global_tensors_member
    by_cases hc : (g.mem p).union_no = (u : Int)
    · have hnd : ¬ (g.mem p).dimensionless := by
        rintro ⟨h1, h2, h3⟩
        exact h p hp h1 h2 (by rw [hc]; exact_mod_cast hu) h3
      simp only [hc, if_true, print_tensor_ok ext opts _ _ hnd]
      exact ⟨_, rfl, rfl⟩
    · simp only [hc, if_false]
      exact ⟨_, rfl, (String.append_empty _).symm⟩

theorem union_loop (ext : Externals) (opts : Options) (g : Graph) (h : g.dimensioned)
    (out : Out) :
    ∃ out', forEach (Graph.print_global_tensors_union ext opts g)
        (List.range g.tensor_unions.length) out = .ok out'
      ∧ out'.dst = out.dst ++ union_section ext opts g := by
  refine forEach_ok _ (union_block ext opts g) _ ?_ out
  intro u hu o
  have hu' : u < g.tensor_unions.length := List.mem_range.mp hu
  obtain ⟨o1, e1, d1⟩ := member_loop ext opts g h u hu'
    (o.write ("union tensor_union_" ++ toString u ++ " \x7b" ++ endl))
  have e : Graph.print_global_tensors_union ext opts g u o = .ok ((o1.write ("\x7d;" ++ endl)).write
      ("static union tensor_union_" ++ toString u ++ " tu" ++ toString u ++ ";" ++ endl ++ endl)) := by
    simp only [Graph.print_global_tensors_union, e1, Res.andThen]
  refine ⟨_, e, ?_⟩
  simp only [Out.write, d1, union_block, String.append_assoc]

/-- On a dimensioned graph `Graph::print_global_tensors` returns, having appended the
standalone declarations and then the union blocks. -/
theorem print_global_tensors_ok (ext : Externals) (opts : Options) (g : Graph)
    (h : g.dimensioned) (out : Out) :
    ∃ out', Graph.print_global_tensors ext opts g out = .ok out'
      ∧ out'.dst = out.dst ++ standalone_section ext opts g ++ union_section ext opts g := by
  obtain ⟨o1, e1, d1⟩ := standalone_loop ext opts g h
    (out.LOG .TRACE ("printing global tensors - ununionized " ++ endl))
  obtain ⟨o2, e2, d2⟩ := union_loop ext opts g h
    (o1.LOG .TRACE ("printing global tensors - unionized " ++ endl))
  have e : Graph.print_global_tensors ext opts g out
      = .ok (o2.LOG .TRACE ("(done printing global tensors)" ++ endl)) := by
    simp only [Graph.print_global_tensors, e1, Res.andThen, e2]
  refine ⟨_, e, ?_⟩
  simp only [Out.LOG, d2, d1]


/-- Taking an element out of a list does not change a filtered join to which the
element contributes no text. -/
theorem join_filter_remove {α : Type} (c : α → Bool) (f : α → String) (pre post : List α)
    (p : α) (h : c p = true → f p = "") :
    String.join (((pre ++ p :: post).filter c).map f)
      = String.join (((pre ++ post).filter c).map f) := by
  simp only [List.filter_append, List.map_append, join_append, List.filter_cons]
  cases hc : c p
  · simp
  · simp [join_cons, h hc]

/-- A graph stays dimensioned when a tensor is taken out of its list. -/
theorem dimensioned_remove (g : Graph) (pre post : List Nat) (p : Nat)
    (ht : g.tensors = pre ++ p :: post) (h : g.dimensioned) :
    Graph.dimensioned { g with tensors := pre ++ post } := by
  intro q hq
  apply h q
  rw [ht]
  simp only [List.mem_append, List.mem_cons] at hq ⊢
  tauto

/-! ## The node functions -/

theorem print_functions_node_eq (ext : Externals) (g : Graph) (out : Out) (n : Node) :
    Graph.print_functions_node ext g out n =
      out.write (if n.op_name ≠ "graph_io" then function_definition ext g.mem n else "") := by
  by_cases h : n.op_name = "graph_io"
  · simp [Graph.print_functions_node, h, Out.write]
  · simp [Graph.print_functions_node, h, Out.write, function_definition, String.append_assoc]

theorem print_functions_eq (ext : Externals) (g : Graph) (out : Out) :
    Graph.print_functions ext g out =
      out.write (String.join (g.computation_nodes.map (function_definition ext g.mem))) := by
  unfold Graph.print_functions Graph.computation_nodes
  rw [foldl_write _ _ (print_functions_node_eq ext g), join_map_ite]

/-! ## The entry function -/

theorem separated_cons (b : Bool) (r : String) (rs : List String) :
    separated b (r :: rs) = (if b = false then ", " else "") ++ r ++ separated false rs := by
  cases b
  · simp [separated, join_cons, String.append_assoc]
  · simp [separated, intercalate_cons]

theorem separated_append (l₁ l₂ : List String) (b : Bool) :
    separated b (l₁ ++ l₂) = separated b l₁ ++ separated (b && l₁.isEmpty) l₂ := by
  cases l₁ with
  | nil => cases b <;> simp [separated, join_nil, String.intercalate]
  | cons r rs =>
    rw [List.cons_append, separated_cons, separated_cons]
    have : separated false (rs ++ l₂) = separated false rs ++ separated false l₂ := by
      simp [separated, join_append]
    simp [this, String.append_assoc]

theorem separator_write (b : Bool) (out : Out) (r : String) :
    (separator b out).write r = out.write ((if b = false then ", " else "") ++ r) := by
  cases b <;> simp [separator, Out.write, String.append_assoc]

theorem write_write (out : Out) (a b : String) : (out.write a).write b = out.write (a ++ b) := by
  simp [Out.write, String.append_assoc]

theorem write_empty (out : Out) : out.write "" = out := by
  simp [Out.write]

/-- The first parameter loop writes the input parameters with their separators. -/
theorem input_loop (ext : Externals) (g : Graph) (l : List String) (b : Bool) (out : Out) :
    l.foldl (Graph.print_interface_function_input ext g) (b, out) =
      (b && (l.filterMap (input_param ext g)).isEmpty,
        out.write (separated b (l.filterMap (input_param ext g)))) := by
  induction l generalizing b out with
  | nil => cases b <;> simp [separated, join_nil, String.intercalate, write_empty]
  | cons i l ih =>
    rw [List.foldl_cons]
    cases hf : g.findTensor i with
    | none =>
      have hp : input_param ext g i = none := by simp [input_param, hf]
      simp only [Graph.print_interface_function_input, hf, ih, List.filterMap_cons, hp]
    | some p =>
      by_cases hio : Tensor.isIO (g.mem p) = true
      · have hp : input_param ext g i = some (ext.print_tensor_as_const (g.mem p)) := by
          simp [input_param, hf, hio]
        simp only [Graph.print_interface_function_input, hf, hio, if_true, ih,
          List.filterMap_cons, hp, separated_cons, separator_write, write_write,
          List.isEmpty_cons, Bool.and_false, Bool.false_and, String.append_assoc]
      · have hp : input_param ext g i = none := by simp [input_param, hf, hio]
        have hio' : Tensor.isIO (g.mem p) = false := by simpa using hio
        have hstep : Graph.print_interface_function_input ext g (b, out) i = (b, out) := by
          simp [Graph.print_interface_function_input, hf, hio']
        rw [hstep, ih, List.filterMap_cons, hp]

theorem clearConst_self (mem : Nat → Tensor) (p : Nat) :
    clearConst mem p p = { mem p with isConst := false } := by
  simp [clearConst]

theorem clearConst_cleared (mem : Nat → Tensor) (p q : Nat) :
    ({ clearConst mem p q with isConst := false } : Tensor) = { mem q with isConst := false } := by
  by_cases h : q = p <;> simp [clearConst, h]

theorem clearConsts_cons (mem : Nat → Tensor) (p : Nat) (ps : List Nat) :
    clearConsts (clearConst mem p) ps = clearConsts mem (p :: ps) := by
  funext q
  by_cases h1 : q = p <;> by_cases h2 : q ∈ ps <;> simp [clearConsts, clearConst, h1, h2]

theorem clearConsts_nil (mem : Nat → Tensor) : clearConsts mem [] = mem := by
  funext q; simp [clearConsts]

/-- The second parameter loop clears the const flag of every non-null tensor and writes
its rendering with the flag cleared, with the separators. -/
theorem output_loop (ext : Externals) (l : List (Option Nat)) (b : Bool)
    (mem : Nat → Tensor) (out : Out) :
    l.foldl (Graph.print_interface_function_output ext) (b, mem, out) =
      (b && (l.filterMap id).isEmpty, clearConsts mem (l.filterMap id),
        out.write (separated b ((l.filterMap id).map fun p =>
          ext.print_tensor { mem p with isConst := false }))) := by
  induction l generalizing b mem out with
  | nil => cases b <;> simp [separated, join_nil, String.intercalate, write_empty, clearConsts_nil]
  | cons o l ih =>
    rw [List.foldl_cons]
    cases o with
    | none => simp only [Graph.print_interface_function_output, ih, List.filterMap_cons, id]
    | some p =>
      simp only [Graph.print_interface_function_output, ih, List.filterMap_cons, id,
        clearConst_self, clearConst_cleared, clearConsts_cons, List.map_cons, separated_cons,
        separator_write, write_write, List.isEmpty_cons, Bool.and_false, Bool.false_and,
        String.append_assoc]

theorem calls_loop (ext : Externals) (mem : Nat → Tensor) (nodes : List Node) (out : Out) :
    nodes.foldl (Graph.print_interface_function_call ext mem) out =
      out.write (String.join ((nodes.filter fun n => decide (n.op_name ≠ "graph_io")).map
        (call_statement ext mem))) := by
  rw [← join_map_ite]
  apply foldl_write
  intro o n
  by_cases h : n.op_name = "graph_io"
  · simp [Graph.print_interface_function_call, h, Out.write]
  · simp [Graph.print_interface_function_call, h, Out.write, call_statement, String.append_assoc]

/-- Without a graph_output node `Graph::print_interface_function` stops, the graph
untouched, after the input parameters. -/
theorem print_interface_function_fatal (ext : Externals) (g : Graph) (definition : Bool)
    (out : Out) (h : g.findNodeByName "graph_output" = none) :
    Graph.print_interface_function ext g definition out =
      .fatal "internal onnx2c error: no graph_output node"
        (g, out.write ("void entry(" ++ separated true (input_params ext g))) := by
  simp only [Graph.print_interface_function, h, input_loop, write_write, input_params]

/-- With the graph_output node `n`, `Graph::print_interface_function` returns: the
const flags of the outputs are cleared, the signature and its tail are written. -/
theorem print_interface_function_ok (ext : Externals) (g : Graph) (definition : Bool)
    (out : Out) (n : Node) (h : g.findNodeByName "graph_output" = some n) :
    Graph.print_interface_function ext g definition out =
      .ok ({ g with mem := clearConsts g.mem n.outputs },
        out.write (signature ext g n
          ++ entry_tail ext (clearConsts g.mem n.outputs) g.nodes definition)) := by
  have hs : "void entry(" ++ separated true (input_params ext g)
      ++ separated (true && (input_params ext g).isEmpty) (output_params ext g.mem n) ++ ")"
      = signature ext g n := by
    rw [signature, String.append_assoc "void entry(", ← separated_append]
    simp [separated]
  cases definition
  · simp only [Graph.print_interface_function, h, input_loop, output_loop, calls_loop,
      write_write, if_true, entry_tail, ← hs, input_params, output_params, Node.outputs,
      String.append_assoc]
  · simp only [Graph.print_interface_function, h, input_loop, output_loop, calls_loop,
      write_write, Bool.true_eq_false, if_false, entry_tail, ← hs, input_params, output_params,
      Node.outputs, String.append_assoc]

/-! ## The whole source -/

/-- Clearing flags that are clear changes nothing. -/
theorem clearConsts_of_clear (mem : Nat → Tensor) (ps : List Nat)
    (h : ∀ p ∈ ps, (mem p).isConst = false) : clearConsts mem ps = mem := by
  funext q
  by_cases hq : q ∈ ps
  · have := h q hq
    simp only [clearConsts, hq, if_true]
    cases hm : mem q
    simp_all
  · simp [clearConsts, hq]

/-- The graph `Graph::print_source` leaves: the graph it was given, or, when it got as
far as the graph_output node `n`, that graph with the const flags of the inputs of `n`
cleared. -/
theorem print_source_cases (ext : Externals) (opts : Options) (definition : Bool)
    (g : Graph) (out : Out) :
    (Graph.print_source ext opts definition g out).state.1 = g
    ∨ ∃ n, g.findNodeByName "graph_output" = some n
        ∧ (Graph.print_source ext opts definition g out).state.1
          = { g with mem := clearConsts g.mem n.outputs } := by
  unfold Graph.print_source
  simp only
  cases Graph.print_global_tensors ext opts g _ with
  | fatal m o => exact Or.inl rfl
  | ok o =>
    cases hf : g.findNodeByName "graph_output" with
    | none =>
      left
      simp only [print_interface_function_fatal ext g definition _ hf, Res.state]
    | some n =>
      right
      exact ⟨n, rfl, by simp only [print_interface_function_ok ext g definition _ n hf, Res.state]⟩

/-- A graph whose outputs are not constant is left as it was. -/
theorem print_source_state (ext : Externals) (opts : Options) (definition : Bool)
    (g : Graph) (out : Out)
    (h : ∀ n, g.findNodeByName "graph_output" = some n →
      ∀ p ∈ n.outputs, (g.mem p).isConst = false) :
    (Graph.print_source ext opts definition g out).state.1 = g := by
  rcases print_source_cases ext opts definition g out with h1 | ⟨n, hn, h1⟩
  · exact h1
  · rw [h1, clearConsts_of_clear g.mem n.outputs (h n hn)]

/-! ## Outcomes that agree -/

theorem forEach_append {α σ : Type} (body : α → σ → Res σ) (xs ys : List α) (s : σ) :
    forEach body (xs ++ ys) s = (forEach body xs s).andThen (forEach body ys) := by
  induction xs generalizing s with
  | nil => rfl
  | cons x xs ih =>
    show (body x s).andThen (forEach body (xs ++ ys))
      = ((body x s).andThen (forEach body xs)).andThen (forEach body ys)
    cases body x s with
    | ok s' => exact ih s'
    | fatal m s' => rfl

/-- A loop is aborted when its body is aborted at one of the elements, whatever the
state there. -/
theorem forEach_fatal {α σ : Type} (body : α → σ → Res σ) (x : α) (xs : List α)
    (hx : x ∈ xs) (h : ∀ s, (body x s).isFatal = true) (s : σ) :
    (forEach body xs s).isFatal = true := by
  induction xs generalizing s with
  | nil => cases hx
  | cons y ys ih =>
    simp only [forEach]
    cases hb : body y s with
    | fatal m s' => rfl
    | ok s' =>
      simp only [Res.andThen]
      rcases List.mem_cons.mp hx with rfl | hmem
      · have := h s
        rw [hb] at this
        cases this
      · exact ih hmem s'

theorem same_andThen (r₁ r₂ : Res Out) (k₁ k₂ : Out → Res Out) (h : Res.same r₁ r₂)
    (hk : ∀ a b : Out, a.dst = b.dst → Res.same (k₁ a) (k₂ b)) :
    Res.same (r₁.andThen k₁) (r₂.andThen k₂) := by
  cases r₁ with
  | ok a =>
    cases r₂ with
    | ok b => exact hk a b h.2
    | fatal m b => cases h.1
  | fatal m a =>
    cases r₂ with
    | ok b => cases h.1
    | fatal m' b => exact h

/-- Two loops over the same list whose bodies agree from states with the same text
agree. -/
theorem forEach_same {α : Type} (f₁ f₂ : α → Out → Res Out) (xs : List α)
    (h : ∀ x ∈ xs, ∀ a b : Out, a.dst = b.dst → Res.same (f₁ x a) (f₂ x b))
    (a b : Out) (hab : a.dst = b.dst) :
    Res.same (forEach f₁ xs a) (forEach f₂ xs b) := by
  induction xs generalizing a b with
  | nil => exact ⟨rfl, hab⟩
  | cons x xs ih =>
    simp only [forEach]
    exact same_andThen _ _ _ _ (h x (List.mem_cons_self _ _) a b hab)
      (fun a' b' h' => ih (fun y hy => h y (List.mem_cons_of_mem _ hy)) a' b' h')

/-- Taking out of the list an element at which the body returns without writing does
not change what the loop does to the stream. -/
theorem forEach_same_remove {α : Type} (f₁ f₂ : α → Out → Res Out) (pre post : List α)
    (p : α)
    (h : ∀ x, ∀ a b : Out, a.dst = b.dst → Res.same (f₁ x a) (f₂ x b))
    (hp : ∀ a, ∃ a', f₁ p a = .ok a' ∧ a'.dst = a.dst)
    (a b : Out) (hab : a.dst = b.dst) :
    Res.same (forEach f₁ (pre ++ p :: post) a) (forEach f₂ (pre ++ post) b) := by
  rw [forEach_append, forEach_append]
  apply same_andThen
  · exact forEach_same f₁ f₂ pre (fun x _ => h x) a b hab
  · intro a' b' h'
    obtain ⟨a'', e, d⟩ := hp a'
    simp only [forEach, e, Res.andThen]
    exact forEach_same f₁ f₂ post (fun x _ => h x) a'' b' (d.trans h')

/-- What `Graph::print_tensor` does to the stream does not depend on the log. -/
theorem print_tensor_same (ext : Externals) (opts : Options) (t : Tensor) (a b : Out)
    (hab : a.dst = b.dst) :
    Res.same (Graph.print_tensor ext opts t a) (Graph.print_tensor ext opts t b) := by
  by_cases hd : t.dimensionless
  · rw [print_tensor_fatal ext opts t a hd, print_tensor_fatal ext opts t b hd]
    exact ⟨rfl, hab⟩
  · rw [print_tensor_ok ext opts t a hd, print_tensor_ok ext opts t b hd]
    exact ⟨rfl, by simp only [Res.state, hab]⟩

theorem standalone_same (ext : Externals) (opts : Options) (g : Graph) (p : Nat) (a b : Out)
    (hab : a.dst = b.dst) :
    Res.same (Graph.print_global_tensors_standalone ext opts g p a)
      (Graph.print_global_tensors_standalone ext opts g p b) := by
  unfold Graph.print_global_tensors_standalone
  by_cases hc : (g.mem p).union_no < 0 ∧ (g.mem p).generate = true
  · simp only [hc, and_self, if_true]
    exact print_tensor_same ext opts _ _ _ hab
  · simp only [hc, if_false]
    exact ⟨rfl, hab⟩

theorem member_same (ext : Externals) (opts : Options) (g : Graph) (u p : Nat) (a b : Out)
    (hab : a.dst = b.dst) :
    Res.same (Graph.print_global_tensors_member ext opts g u p a)
      (Graph.print_global_tensors_member ext opts g u p b) := by
  unfold Graph.print_global_tensors_member
  by_cases hc : (g.mem p).union_no = (u : Int)
  · simp only [hc, if_true]
    exact print_tensor_same ext opts _ _ _ hab
  · simp only [hc, if_false]
    exact ⟨rfl, hab⟩

/-- A tensor whose union does not exist can be taken out of the tensor list:
`Graph::print_global_tensors` is aborted or not as before and writes the same text. -/
theorem print_global_tensors_same_remove (ext : Externals) (opts : Options) (g : Graph)
    (pre post : List Nat) (p : Nat) (ht : g.tensors = pre ++ p :: post)
    (hu : (g.tensor_unions.length : Int) ≤ (g.mem p).union_no) (out : Out) :
    Res.same (Graph.print_global_tensors ext opts g out)
      (Graph.print_global_tensors ext opts { g with tensors := pre ++ post } out) := by
  have h0 : ¬ (g.mem p).union_no < 0 := by
    have : (0 : Int) ≤ (g.tensor_unions.length : Int) := Int.ofNat_nonneg _
    omega
  unfold Graph.print_global_tensors
  simp only [ht]
  apply same_andThen
  · apply forEach_same_remove _ _ pre post p
    · intro x a b hab
      exact standalone_same ext opts g x a b hab
    · intro a
      refine ⟨a.LOG .TRACE ("\t" ++ ext.print_trace_dump (g.mem p) ++ endl), ?_, rfl⟩
      simp only [Graph.print_global_tensors_standalone]
      rw [if_neg (fun hc => h0 hc.1)]
    · rfl
  · intro a b hab
    apply same_andThen
    · apply forEach_same
      · intro u hu' a' b' hab'
        have hlt : u < g.tensor_unions.length := List.mem_range.mp hu'
        unfold Graph.print_global_tensors_union
        simp only [ht]
        apply same_andThen
        · apply forEach_same_remove _ _ pre post p
          · intro x a₁ b₁ h₁
            exact member_same ext opts g u x a₁ b₁ h₁
          · intro a₁
            refine ⟨a₁, ?_, rfl⟩
            simp only [Graph.print_global_tensors_member]
            rw [if_neg]
            intro hc
            rw [hc] at hu
            have : (u : Int) < (g.tensor_unions.length : Int) := by exact_mod_cast hlt
            omega
          · simp only [Out.write, hab']
        · intro a₁ b₁ h₁
          exact ⟨rfl, by simp only [Res.state, Out.write, h₁]⟩
      · simp only [Out.LOG, hab]
    · intro a₁ b₁ h₁
      exact ⟨rfl, by simp only [Res.state, Out.LOG, h₁]⟩

/-- `Graph::print_global_tensors` is aborted when a tensor it passes on to
`Graph::print_tensor` is dimensionless. -/
theorem print_global_tensors_fatal (ext : Externals) (opts : Options) (g : Graph) (out : Out)
    (p : Nat) (hp : p ∈ g.tensors) (hd : (g.mem p).dimensionless)
    (hu : (g.mem p).union_no < (g.tensor_unions.length : Int)) :
    (Graph.print_global_tensors ext opts g out).isFatal = true := by
  unfold Graph.print_global_tensors
  by_cases h0 : (g.mem p).union_no < 0
  · have hf := forEach_fatal (Graph.print_global_tensors_standalone ext opts g) p g.tensors hp
      (fun s => by
        simp only [Graph.print_global_tensors_standalone, h0, hd.1, and_self, if_true,
          print_tensor_fatal ext opts _ _ hd, Res.isFatal])
      (out.LOG .TRACE ("printing global tensors - ununionized " ++ endl))
    simp only
    cases hr : forEach (Graph.print_global_tensors_standalone ext opts g) g.tensors
        (out.LOG .TRACE ("printing global tensors - ununionized " ++ endl)) with
    | ok s => rw [hr] at hf; cases hf
    | fatal m s => rfl
  · simp only
    cases hr : forEach (Graph.print_global_tensors_standalone ext opts g) g.tensors
        (out.LOG .TRACE ("printing global tensors - ununionized " ++ endl)) with
    | fatal m s => rfl
    | ok s =>
      simp only [Res.andThen]
      have hnn : 0 ≤ (g.mem p).union_no := not_lt.mp h0
      obtain ⟨u, hu_eq⟩ := Int.eq_ofNat_of_zero_le hnn
      have hlt : u < g.tensor_unions.length := by
        rw [hu_eq] at hu
        exact_mod_cast hu
      have hf := forEach_fatal (Graph.print_global_tensors_union ext opts g) u
        (List.range g.tensor_unions.length) (List.mem_range.mpr hlt)
        (fun s' => by
          have hm := forEach_fatal (Graph.print_global_tensors_member ext opts g u) p g.tensors
            hp (fun s'' => by
              simp only [Graph.print_global_tensors_member, hu_eq, if_true,
                print_tensor_fatal ext opts _ _ hd, Res.isFatal])
            (s'.write ("union tensor_union_" ++ toString u ++ " \x7b" ++ endl))
          unfold Graph.print_global_tensors_union
          simp only
          cases hr' : forEach (Graph.print_global_tensors_member ext opts g u) g.tensors
              (s'.write ("union tensor_union_" ++ toString u ++ " \x7b" ++ endl)) with
          | ok s₂ => rw [hr'] at hm; cases hm
          | fatal m s₂ => rfl)
        (s.LOG .TRACE ("printing global tensors - unionized " ++ endl))
      cases hr' : forEach (Graph.print_global_tensors_union ext opts g)
          (List.range g.tensor_unions.length)
          (s.LOG .TRACE ("printing global tensors - unionized " ++ endl)) with
      | ok s₂ => rw [hr'] at hf; cases hf
      | fatal m s₂ => rfl

/-- `Graph::print_global_tensors` is aborted exactly on the graphs that are not
dimensioned. -/
theorem print_global_tensors_fatal_iff (ext : Externals) (opts : Options) (g : Graph)
    (out : Out) :
    (Graph.print_global_tensors ext opts g out).isFatal = true ↔ ¬ g.dimensioned := by
  constructor
  · intro hf hd
    obtain ⟨o, e, -⟩ := print_global_tensors_ok ext opts g hd out
    rw [e] at hf
    cases hf
  · intro hnd
    unfold Graph.dimensioned at hnd
    push_neg at hnd
    obtain ⟨p, hp, h1, h2, h3, h4⟩ := hnd
    exact print_global_tensors_fatal ext opts g out p hp ⟨h1, h2, h4⟩ h3

/-! ## The preamble -/

set_option maxRecDepth 100000 in
theorem print_includes_eq (opts : Options) (out : Out) :
    Graph.print_includes opts out
      = ⟨out.dst ++ (generic_preamble ++ if opts.target_avr = true then avr_preamble else ""),
          out.log⟩ := by
  cases opts with
  | mk avr =>
    cases avr
    · simp only [Graph.print_includes, write_write, Bool.false_eq_true, if_false,
        String.append_empty]
      simp only [Out.write]
      congr 2
    · simp only [Graph.print_includes, write_write, if_true]
      simp only [Out.write]
      congr 2

/-! ## The claims -/

/-- C1: for a graph with a node named "graph_output" (`n`, the node the lookup finds),
`print_interface_function` returns, and what it writes begins with "void entry(", then
the ", "-separated join of, first, the read-only renderings of the declared model inputs
whose name resolves to a tensor with `isIO` set, in declared order, and then the plain
renderings of the non-null inputs of `n`, in order, then ")". A declared input that does
not resolve, or resolves to a tensor without `isIO`, contributes nothing, and with no
parameters the text is "void entry()". -/
theorem entry_parameter_list (ext : Externals) (g : Graph) (definition : Bool) (out : Out)
    (n : Node) (h : g.findNodeByName "graph_output" = some n) :
    (∃ g', Graph.print_interface_function ext g definition out =
      .ok (g', ⟨out.dst ++ ("void entry("
          ++ ", ".intercalate
              (g.model.graph_input.filterMap (input_param ext g)
                ++ n.outputs.map fun p => ext.print_tensor { g.mem p with isConst := false })
          ++ ")") ++ entry_tail ext g'.mem g.nodes definition, out.log⟩))
    ∧ (∀ i, (g.findTensor i = none ∨ ∃ p, g.findTensor i = some p ∧ Tensor.isIO (g.mem p) = false)
        → input_param ext g i = none)
    ∧ (∀ i p, g.findTensor i = some p → Tensor.isIO (g.mem p) = true
        → input_param ext g i = some (ext.print_tensor_as_const (g.mem p)))
    ∧ (g.model.graph_input.filterMap (input_param ext g) = [] → n.outputs = [] →
        ∃ g', Graph.print_interface_function ext g definition out =
          .ok (g', ⟨out.dst ++ "void entry()" ++ entry_tail ext g'.mem g.nodes definition,
            out.log⟩)) := by
  have key := print_interface_function_ok ext g definition out n h
  refine ⟨⟨{ g with mem := clearConsts g.mem n.outputs }, ?_⟩, ?_, ?_, ?_⟩
  · rw [key]
    simp only [Out.write, signature, input_params, output_params, String.append_assoc]
  · rintro i (hi | ⟨p, hp, hio⟩)
    · simp [input_param, hi]
    · simp [input_param, hp, hio]
  · intro i p hp hio
    simp [input_param, hp, hio]
  · intro h1 h2
    refine ⟨{ g with mem := clearConsts g.mem n.outputs }, ?_⟩
    rw [key]
    simp [signature, input_params, output_params, h1, h2, Out.write, String.intercalate,
      String.append_assoc]

/-- C1 at the demo graph: of the declared inputs `a`, `b`, `missing` only `a` is a
parameter, read-only, followed by the output `c`, writable. -/
theorem entry_parameter_list_witness :
    (Graph.print_interface_function demo_ext demo_graph false fresh).isFatal = false ∧
    (Graph.print_interface_function demo_ext demo_graph false fresh).state.2.dst
      = "void entry(const float a[1], float c[1]);\n" := by
  obtain ⟨⟨g', hg⟩, -⟩ :=
    entry_parameter_list demo_ext demo_graph false fresh demo_sink (by decide)
  rw [hg]
  exact ⟨rfl, rfl⟩

/-- C2: for a graph with `n` union groups in which every rendered tensor has a non-empty
`data_dim`, `print_global_tensors` returns, and after the standalone declarations its
output is, for `u = 0, ..., n-1` in increasing order, one block: the line
"union tensor_union_u {", what `print_tensor` writes for every tensor whose `union_no`
is `u`, in the order of the tensor list, the line "};" and one instance declaration
"static union tensor_union_u tuu;". A member of group `u` is in no other block. -/
theorem union_blocks (ext : Externals) (opts : Options) (g : Graph) (out : Out)
    (h : g.dimensioned) :
    ∃ out', Graph.print_global_tensors ext opts g out = .ok out'
      ∧ out'.dst = out.dst ++ standalone_section ext opts g
          ++ String.join ((List.range g.tensor_unions.length).map fun (u : Nat) =>
              ("union tensor_union_" ++ toString u ++ " \x7b" ++ endl)
                ++ String.join
                    ((g.tensors.filter fun p => decide ((g.mem p).union_no = (u : Int))).map
                      fun p => written ext opts (g.mem p))
                ++ ("\x7d;" ++ endl)
                ++ ("static union tensor_union_" ++ toString u ++ " tu" ++ toString u ++ ";"
                    ++ endl ++ endl))
      ∧ ∀ u v p, p ∈ g.members u → v ≠ u → p ∉ g.members v := by
  obtain ⟨o, e, d⟩ := print_global_tensors_ok ext opts g h out
  refine ⟨o, e, ?_, ?_⟩
  · rw [d, union_section]
    congr 2
    apply List.map_congr_left
    intro u hu
    have hu' : u < g.tensor_unions.length := List.mem_range.mp hu
    unfold union_block Graph.members
    congr 4
    apply List.map_congr_left
    intro p hp
    simp only [List.mem_filter, decide_eq_true_eq] at hp
    symm
    apply written_eq
    rintro ⟨h1, h2, h3⟩
    exact h p hp.1 h1 h2 (by rw [hp.2]; exact_mod_cast hu') h3
  · intro u v p hu hne hv
    simp only [Graph.members, List.mem_filter, decide_eq_true_eq] at hu hv
    apply hne
    have := hv.2.symm.trans hu.2
    exact_mod_cast this

/-- C2 at the demo graph: its one union has the members `b` and `z`; `z`, of shape
`[0]`, leaves no text. -/
theorem union_blocks_witness :
    demo_graph.dimensioned ∧
    (Graph.print_global_tensors demo_ext ⟨true⟩ demo_graph fresh).state.dst
      = "static float a[1];\nstatic const float c[1] PROGMEM = \n\x7b0\x7d;\n"
        ++ "union tensor_union_0 \x7b\nfloat b[1];\n\x7d;\nstatic union tensor_union_0 tu0;\n\n" := by
  have hd : demo_graph.dimensioned := by
    intro p hp
    simp only [demo_graph, List.mem_cons, List.mem_singleton, List.not_mem_nil, or_false] at hp
    rcases hp with rfl | rfl | rfl | rfl <;> decide
  obtain ⟨o, e, d, -⟩ := union_blocks demo_ext ⟨true⟩ demo_graph fresh hd
  refine ⟨hd, ?_⟩
  rw [e]
  show o.dst = _
  rw [d]
  decide

/-- C3: for a graph whose tensors all have a non-empty `data_dim`,
`print_global_tensors` returns, and its output before the union blocks is the
concatenation, in the order of the tensor list, of one "static "-prefixed declaration
for each tensor with `generate` set, a non-empty name, `union_no < 0` and a shape other
than `[0]`, and nothing else. A tensor with `union_no >= 0` is not among them, and
`print_tensor` writes it without the "static " qualifier. -/
theorem standalone_declarations (ext : Externals) (opts : Options) (g : Graph) (out : Out)
    (h : ∀ p ∈ g.tensors, (g.mem p).data_dim ≠ []) :
    ∃ out', Graph.print_global_tensors ext opts g out = .ok out'
      ∧ out'.dst = out.dst
          ++ String.join
              ((g.tensors.filter fun p =>
                  decide ((g.mem p).generate = true ∧ (g.mem p).name ≠ ""
                    ∧ (g.mem p).union_no < 0 ∧ (g.mem p).data_dim ≠ [0])).map
                fun p => "static " ++ declaration ext opts (g.mem p))
          ++ union_section ext opts g
      ∧ ∀ p ∈ g.tensors, 0 ≤ (g.mem p).union_no →
          p ∉ g.standalone
          ∧ ∀ o, Graph.print_tensor ext opts (g.mem p) o
              = .ok ⟨o.dst ++ (if (g.mem p).skipped then "" else declaration ext opts (g.mem p)),
                  o.log ++ warnings (g.mem p)⟩ := by
  have hd : g.dimensioned := fun p hp _ _ _ => h p hp
  obtain ⟨o, e, d⟩ := print_global_tensors_ok ext opts g hd out
  refine ⟨o, e, d, ?_⟩
  intro p hp hu
  constructor
  · simp only [Graph.standalone, List.mem_filter, decide_eq_true_eq, not_and]
    intro _ _ _ hlt
    omega
  · intro o
    rw [print_tensor_ok ext opts _ _ (fun hdim => h p hp hdim.2.2)]
    simp [rendering, not_lt.mpr hu]

/-- C3 at the demo graph without its zero-sized tensor. -/
theorem standalone_declarations_witness :
    (∀ p ∈ demo_graph_nz.tensors, (demo_graph_nz.mem p).data_dim ≠ []) ∧
    (Graph.print_global_tensors demo_ext ⟨false⟩ demo_graph_nz fresh).state.dst
      = "static float a[1];\nstatic const float c[1] = \n\x7b0\x7d;\n"
        ++ "union tensor_union_0 \x7b\nfloat b[1];\n\x7d;\nstatic union tensor_union_0 tu0;\n\n" := by
  have hd : ∀ p ∈ demo_graph_nz.tensors, (demo_graph_nz.mem p).data_dim ≠ [] := by
    intro p hp
    simp only [demo_graph_nz, List.mem_cons, List.mem_singleton, List.not_mem_nil, or_false] at hp
    rcases hp with rfl | rfl | rfl <;> decide
  obtain ⟨o, e, d, -⟩ := standalone_declarations demo_ext ⟨false⟩ demo_graph_nz fresh hd
  refine ⟨hd, ?_⟩
  rw [e]
  show o.dst = _
  rw [d]
  decide

/-- C4: `print_functions` writes, in the order of the node list, exactly one
function definition (comment with `op_name` and `onnx_name`, the line
"FUNC_PREFIX void c_name( parameters )", the body in braces, a blank line) for each
node whose `op_name` is not "graph_io", and
nothing for the others; the number of definitions is the number of such nodes, and they
are in the relative order of the node list. -/
theorem function_definitions (ext : Externals) (g : Graph) (out : Out) :
    Graph.print_functions ext g out
      = ⟨out.dst ++ String.join
          ((g.nodes.filter fun n => decide (n.op_name ≠ "graph_io")).map fun n =>
            ("/*" ++ endl)
              ++ (" * Operand:           " ++ n.op_name ++ endl)
              ++ (" * Name in ONNX file: " ++ n.onnx_name ++ endl)
              ++ (" */" ++ endl)
              ++ "FUNC_PREFIX void "
              ++ (ext.c_name n ++ "( ")
              ++ ext.print_function_parameters_definition g.mem n
              ++ " )"
              ++ (endl ++ "\x7b" ++ endl)
              ++ ext.print g.mem n
              ++ ("\x7d" ++ endl ++ endl)), out.log⟩
    ∧ ((g.nodes.filter fun n => decide (n.op_name ≠ "graph_io")).map
          (function_definition ext g.mem)).length
        = g.nodes.countP (fun n => decide (n.op_name ≠ "graph_io"))
    ∧ (g.nodes.filter fun n => decide (n.op_name ≠ "graph_io")).Sublist g.nodes := by
  refine ⟨?_, ?_, List.filter_sublist _⟩
  · rw [print_functions_eq]
    rfl
  · rw [List.length_map, List.countP_eq_length_filter]

/-- C5: for a graph with a node named "graph_output" (`n`), `print_interface_function`
returns, with either value of the flag; afterwards every non-null input tensor of `n`
has `isConst = false`, the output parameters of the signature are the renderings of
these tensors in that final state, and nothing else has changed: those tensors are the
old ones but for `isConst`, every other tensor is the old one, and the tensor list, the
union list, the node list and the model are the old ones. -/
theorem entry_clears_const_only (ext : Externals) (g : Graph) (definition : Bool) (out : Out)
    (n : Node) (h : g.findNodeByName "graph_output" = some n) :
    ∃ g' out', Graph.print_interface_function ext g definition out = .ok (g', out')
      ∧ (∀ p ∈ n.outputs, (g'.mem p).isConst = false
          ∧ g'.mem p = { g.mem p with isConst := false })
      ∧ out'.dst = out.dst ++ ("void entry("
          ++ ", ".intercalate
              (input_params ext g ++ n.outputs.map fun p => ext.print_tensor (g'.mem p))
          ++ ")") ++ entry_tail ext g'.mem g.nodes definition
      ∧ (∀ q, q ∉ n.outputs → g'.mem q = g.mem q)
      ∧ g'.tensors = g.tensors ∧ g'.tensor_unions = g.tensor_unions
      ∧ g'.nodes = g.nodes ∧ g'.model = g.model := by
  refine ⟨_, _, print_interface_function_ok ext g definition out n h, ?_, ?_, ?_,
    rfl, rfl, rfl, rfl⟩
  · intro p hp
    simp [clearConsts, hp]
  · have : (n.outputs.map fun p => ext.print_tensor (clearConsts g.mem n.outputs p))
        = output_params ext g.mem n := by
      unfold output_params
      apply List.map_congr_left
      intro p hp
      simp [clearConsts, hp]
    simp only [this, Out.write, signature, String.append_assoc]
  · intro q hq
    simp [clearConsts, hq]

/-- C5 at the demo graph: the constant output `c` is no longer constant afterwards and
is rendered without `const`. -/
theorem entry_clears_const_only_witness :
    demo_c.isConst = true ∧
    ∃ g' out', Graph.print_interface_function demo_ext demo_graph true fresh = .ok (g', out')
      ∧ (g'.mem 2).isConst = false
      ∧ out'.dst = "void entry(const float a[1], float c[1])\x7b\n\tnode_relu0( t0);\n\x7d\n" := by
  obtain ⟨g', out', hr, hc, hd, -⟩ :=
    entry_clears_const_only demo_ext demo_graph true fresh demo_sink (by decide)
  refine ⟨rfl, g', out', hr, (hc 2 (by decide)).1, ?_⟩
  have h2 : g'.mem 2 = { demo_c with isConst := false } := (hc 2 (by decide)).2
  rw [hd]
  have ho : demo_sink.outputs = [2] := by decide
  simp only [ho, List.map_cons, List.map_nil, h2]
  rfl

set_option maxRecDepth 100000 in
/-- The claim C6 as stated fails: on a microcontroller target, the first run of
`print_source` on the demo graph declares the constant output `c` with " PROGMEM" and
then clears its const flag, so the second run, on the graph the first one left,
declares it without; the renderers used do not even look at the flag. -/
theorem successive_runs_differ :
    (Graph.print_source blind_ext ⟨true⟩ true demo_graph fresh).isFatal = false
    ∧ (Graph.print_source blind_ext ⟨true⟩ true
        (Graph.print_source blind_ext ⟨true⟩ true demo_graph fresh).state.1 fresh).state.2.dst
      ≠ (Graph.print_source blind_ext ⟨true⟩ true demo_graph fresh).state.2.dst := by
  decide

/-- C6, amended: when no non-null input tensor of the graph_output node is constant
before the first run (there may be no such node), the first run of `print_source`
leaves the graph as it was and the second run, on that graph, has the same result:
the same text, the same log and the same error if any. Without that condition the
graph is as the first run left it after every later run, so that from the second run
on all runs have the same result. -/
theorem print_source_twice (ext : Externals) (opts : Options) (definition : Bool) (g : Graph)
    (out : Out) :
    ((∀ n, g.findNodeByName "graph_output" = some n →
        ∀ p ∈ n.outputs, (g.mem p).isConst = false) →
      (Graph.print_source ext opts definition g out).state.1 = g
      ∧ Graph.print_source ext opts definition
          (Graph.print_source ext opts definition g out).state.1 out
        = Graph.print_source ext opts definition g out)
    ∧ Graph.print_source ext opts definition
          (Graph.print_source ext opts definition
            (Graph.print_source ext opts definition g out).state.1 out).state.1 out
        = Graph.print_source ext opts definition
            (Graph.print_source ext opts definition g out).state.1 out := by
  have fix : ∀ g : Graph, (∀ n, g.findNodeByName "graph_output" = some n →
      ∀ p ∈ n.outputs, (g.mem p).isConst = false) →
      (Graph.print_source ext opts definition g out).state.1 = g := by
    intro g h
    exact print_source_state ext opts definition g out h
  refine ⟨fun h => ⟨fix g h, by rw [fix g h]⟩, ?_⟩
  rcases print_source_cases ext opts definition g out with h1 | ⟨n, hn, h1⟩
  · rw [h1, h1]
  · have h2 : (Graph.print_source ext opts definition
        (Graph.print_source ext opts definition g out).state.1 out).state.1
        = (Graph.print_source ext opts definition g out).state.1 := by
      apply fix
      rw [h1]
      intro m hm p hp
      have hmn : m = n := by
        have : Graph.findNodeByName { g with mem := clearConsts g.mem n.outputs } "graph_output"
            = g.findNodeByName "graph_output" := rfl
        rw [this, hn] at hm
        exact (Option.some.inj hm).symm
      subst hmn
      simp [clearConsts, hp]
    rw [h2]

/-- C6, amended, at the demo graph with the const flag of its output already clear: the
second run has the result of the first. -/
theorem print_source_twice_witness :
    (∀ n, demo_graph_cleared.findNodeByName "graph_output" = some n →
        ∀ p ∈ n.outputs, (demo_graph_cleared.mem p).isConst = false)
    ∧ Graph.print_source demo_ext ⟨true⟩ true
          (Graph.print_source demo_ext ⟨true⟩ true demo_graph_cleared fresh).state.1 fresh
        = Graph.print_source demo_ext ⟨true⟩ true demo_graph_cleared fresh := by
  have h : ∀ n, demo_graph_cleared.findNodeByName "graph_output" = some n →
      ∀ p ∈ n.outputs, (demo_graph_cleared.mem p).isConst = false := by
    intro n hn p hp
    have hs : demo_graph_cleared.findNodeByName "graph_output" = some demo_sink := by decide
    rw [hs] at hn
    cases hn
    have hp2 : p = 2 := by simpa [demo_sink, Node.outputs] using hp
    subst hp2
    decide
  exact ⟨h, ((print_source_twice demo_ext ⟨true⟩ true demo_graph_cleared fresh).1 h).2⟩

/-- C7: for a graph with a node named "graph_output" (`n`), with `definition = false`
`print_interface_function` writes exactly the signature `S`, ";" and a newline, and
nothing to the log; with `definition = true`, from the same state, it writes the same
`S`, then the opening brace of the body; both leave the same graph. -/
theorem entry_declaration_matches_definition (ext : Externals) (g : Graph) (out : Out)
    (n : Node) (h : g.findNodeByName "graph_output" = some n) :
    ∃ S g', S = "void entry("
          ++ ", ".intercalate (input_params ext g ++ output_params ext g.mem n) ++ ")"
      ∧ Graph.print_interface_function ext g false out
          = .ok (g', ⟨out.dst ++ S ++ ";" ++ endl, out.log⟩)
      ∧ ∃ body, Graph.print_interface_function ext g true out
          = .ok (g', ⟨out.dst ++ S ++ "\x7b" ++ body, out.log⟩) := by
  refine ⟨_, { g with mem := clearConsts g.mem n.outputs }, rfl, ?_, ?_⟩
  · rw [print_interface_function_ok ext g false out n h]
    simp only [Out.write, signature, entry_tail, String.append_assoc, ↓reduceIte]
  · refine ⟨endl ++ String.join ((g.nodes.filter fun n => decide (n.op_name ≠ "graph_io")).map
        (call_statement ext (clearConsts g.mem n.outputs))) ++ ("\x7d" ++ endl), ?_⟩
    rw [print_interface_function_ok ext g true out n h]
    simp only [Out.write, signature, entry_tail, String.append_assoc, Bool.true_eq_false,
      ↓reduceIte]

/-- C7 at the demo graph. -/
theorem entry_declaration_matches_definition_witness :
    ∃ S g', S = "void entry("
          ++ ", ".intercalate (input_params demo_ext demo_graph
              ++ output_params demo_ext demo_graph.mem demo_sink) ++ ")"
      ∧ Graph.print_interface_function demo_ext demo_graph false fresh
          = .ok (g', ⟨fresh.dst ++ S ++ ";" ++ endl, fresh.log⟩)
      ∧ ∃ body, Graph.print_interface_function demo_ext demo_graph true fresh
          = .ok (g', ⟨fresh.dst ++ S ++ "\x7b" ++ body, fresh.log⟩) :=
  entry_declaration_matches_definition demo_ext demo_graph fresh demo_sink (by decide)

/-- C8: `print_tensor` raises the fatal "Tensor of no dimensions?" error if and only if
the tensor has `generate` set, a non-empty name and an empty `data_dim`; it raises no
other error; and a tensor with `generate = false` or with an empty name is a silent
no-op: no output, no log record and no error, whatever its `data_dim`. -/
theorem dimensionless_fatal_iff (ext : Externals) (opts : Options) (t : Tensor) (out : Out) :
    (Graph.print_tensor ext opts t out = .fatal "Tensor of no dimensions?" out
        ↔ (t.generate = true ∧ t.name ≠ "" ∧ t.data_dim = []))
    ∧ ((Graph.print_tensor ext opts t out).isFatal = true
        ↔ (t.generate = true ∧ t.name ≠ "" ∧ t.data_dim = []))
    ∧ (t.generate = false ∨ t.name = "" → Graph.print_tensor ext opts t out = .ok out) := by
  by_cases hd : t.dimensionless
  · have hf := print_tensor_fatal ext opts t out hd
    refine ⟨?_, ?_, ?_⟩
    · simp only [hf, true_iff]; exact hd
    · simp only [hf, Res.isFatal, true_iff]; exact hd
    · rintro (h | h)
      · rw [hd.1] at h; cases h
      · exact absurd h hd.2.1
  · have ho := print_tensor_ok ext opts t out hd
    refine ⟨?_, ?_, ?_⟩
    · rw [ho]
      constructor
      · intro hc; cases hc
      · intro hc; exact absurd hc hd
    · rw [ho]
      constructor
      · intro hc; cases hc
      · intro hc; exact absurd hc hd
    · rintro (h | h) <;> simp [Graph.print_tensor, h]

/-- C8 at a generated, named tensor without dimensions, and at the same tensor with
`generate` cleared. -/
theorem dimensionless_fatal_iff_witness :
    Graph.print_tensor demo_ext ⟨false⟩ demo_d fresh = .fatal "Tensor of no dimensions?" fresh
    ∧ Graph.print_tensor demo_ext ⟨false⟩ { demo_d with generate := false } fresh = .ok fresh :=
  ⟨(dimensionless_fatal_iff demo_ext ⟨false⟩ demo_d fresh).1.mpr (by decide),
   (dimensionless_fatal_iff demo_ext ⟨false⟩ { demo_d with generate := false } fresh).2.2
     (Or.inl rfl)⟩

/-- C9: for a tensor with `generate` set, a non-empty name and `data_dim = [0]`,
whatever its `union_no`, `initialize` and `isConst`, `print_tensor` writes nothing,
adds exactly one record, a warning, to the log and raises no error; so in
`print_global_tensors` the tensor contributes no text, neither to the standalone
declarations nor to the block of its union: the output is the one of the graph without
that entry of the tensor list. With two or more dimensions instead, zero entries or not,
the tensor is not skipped: its declaration is written and nothing is logged. -/
theorem zero_size_skipped (ext : Externals) (opts : Options) (t : Tensor) (out : Out)
    (hg : t.generate = true) (hn : t.name ≠ "") (hz : t.data_dim = [0]) :
    Graph.print_tensor ext opts t out
      = .ok ⟨out.dst, out.log ++ [(LogLevel.WARNING,
          "Tensor " ++ t.name ++ " has size of 0. Skipping it" ++ endl)]⟩
    ∧ (∀ (g : Graph) (pre post : List Nat) (p : Nat), g.mem p = t →
        g.tensors = pre ++ p :: post → g.dimensioned →
        ∃ o₁ o₂, Graph.print_global_tensors ext opts g out = .ok o₁
          ∧ Graph.print_global_tensors ext opts { g with tensors := pre ++ post } out = .ok o₂
          ∧ o₁.dst = o₂.dst)
    ∧ (∀ dims : List Int, 2 ≤ dims.length →
        Graph.print_tensor ext opts { t with data_dim := dims } out
          = .ok ⟨out.dst ++ ((if t.union_no < 0 then "static " else "")
              ++ declaration ext opts { t with data_dim := dims }), out.log⟩) := by
  refine ⟨?_, ?_, ?_⟩
  · have hnd : ¬ t.dimensionless := by
      rintro ⟨-, -, h3⟩
      rw [hz] at h3; cases h3
    rw [print_tensor_ok ext opts t out hnd]
    simp [rendering, Tensor.skipped, warnings, hg, hn, hz]
  · intro g pre post p hp ht hd
    have hd' := dimensioned_remove g pre post p ht hd
    obtain ⟨o₁, e₁, d₁⟩ := print_global_tensors_ok ext opts g hd out
    obtain ⟨o₂, e₂, d₂⟩ := print_global_tensors_ok ext opts _ hd' out
    refine ⟨o₁, o₂, e₁, e₂, ?_⟩
    rw [d₁, d₂]
    have hs : standalone_section ext opts { g with tensors := pre ++ post }
        = standalone_section ext opts g := by
      simp only [standalone_section, Graph.standalone, ht]
      symm
      apply join_filter_remove
      simp [hp, hz]
    have hu : union_section ext opts { g with tensors := pre ++ post }
        = union_section ext opts g := by
      unfold union_section
      congr 1
      apply List.map_congr_left
      intro u _
      have hj := join_filter_remove (fun q => decide ((g.mem q).union_no = (u : Int)))
        (fun q => rendering ext opts (g.mem q)) pre post p
        (fun _ => by simp [rendering, Tensor.skipped, hp, hz])
      simp only [union_block, Graph.members, ht, hj]
    rw [hs, hu]
  · intro dims hdims
    have hne : dims ≠ [] := by
      rintro rfl; simp at hdims
    have hnz : dims ≠ [0] := by
      rintro rfl; simp at hdims
    have hnd : ¬ Tensor.dimensionless { t with data_dim := dims } := by
      rintro ⟨-, -, h3⟩
      exact hne h3
    rw [print_tensor_ok ext opts _ out hnd]
    simp [rendering, Tensor.skipped, warnings, hg, hn, hnz]

/-- C9 at the zero-sized tensor `z` of the demo graph, member of union 0 and a constant
with an initializer, and at the shape `[0, 5]`. -/
theorem zero_size_skipped_witness :
    Graph.print_tensor demo_ext ⟨true⟩ demo_z fresh
      = .ok ⟨"", [(LogLevel.WARNING, "Tensor z has size of 0. Skipping it\n")]⟩
    ∧ (∃ o₁ o₂, Graph.print_global_tensors demo_ext ⟨true⟩ demo_graph fresh = .ok o₁
        ∧ Graph.print_global_tensors demo_ext ⟨true⟩ demo_graph_nz fresh = .ok o₂
        ∧ o₁.dst = o₂.dst)
    ∧ Graph.print_tensor demo_ext ⟨true⟩ { demo_z with data_dim := [0, 5] } fresh
      = .ok ⟨"const float z[0] PROGMEM = \n\x7b0\x7d;\n", []⟩ := by
  have hd : demo_graph.dimensioned := by
    intro p hp
    simp only [demo_graph, List.mem_cons, List.mem_singleton, List.not_mem_nil, or_false] at hp
    rcases hp with rfl | rfl | rfl | rfl <;> decide
  obtain ⟨h1, h2, h3⟩ := zero_size_skipped demo_ext ⟨true⟩ demo_z fresh rfl (by decide) rfl
  refine ⟨?_, ?_, ?_⟩
  · rw [h1]; rfl
  · exact h2 demo_graph [0, 1] [2] 3 rfl rfl hd
  · rw [h3 [0, 5] (by decide)]; rfl

/-- C10: `print_interface_function` raises a fatal error if and only if the lookup of
"graph_output" finds no node, that is, no node of the node list has that name; the
error is then "internal onnx2c error: no graph_output node", and the graph it leaves is
the graph it was given, whatever the definition flag. -/
theorem entry_fatal_iff_no_graph_output (ext : Externals) (g : Graph) (definition : Bool)
    (out : Out) :
    ((Graph.print_interface_function ext g definition out).isFatal = true
        ↔ g.findNodeByName "graph_output" = none)
    ∧ (g.findNodeByName "graph_output" = none
        ↔ ∀ n ∈ g.nodes, n.onnx_name ≠ "graph_output")
    ∧ (∀ m s, Graph.print_interface_function ext g definition out = .fatal m s →
        m = "internal onnx2c error: no graph_output node" ∧ s.1 = g) := by
  cases hf : g.findNodeByName "graph_output" with
  | none =>
    refine ⟨?_, ?_, ?_⟩
    · simp [print_interface_function_fatal ext g definition out hf, Res.isFatal]
    · simpa [Graph.findNodeByName] using hf
    · intro m s hs
      rw [print_interface_function_fatal ext g definition out hf] at hs
      injection hs with h1 h2
      exact ⟨h1.symm, by rw [← h2]⟩
  | some n =>
    refine ⟨?_, ?_, ?_⟩
    · simp [print_interface_function_ok ext g definition out n hf, Res.isFatal]
    · have hm := List.find?_some hf
      have hmem := List.mem_of_find?_eq_some hf
      constructor
      · intro hc; cases hc
      · intro hall
        exact absurd (by simpa using hm) (hall n hmem)
    · intro m s hs
      rw [print_interface_function_ok ext g definition out n hf] at hs
      cases hs

/-- C10 at the demo graph without its graph_output node: the error is raised and the
graph is the one given. -/
theorem entry_fatal_iff_no_graph_output_witness :
    (Graph.print_interface_function demo_ext demo_graph_nosink true fresh).isFatal = true
    ∧ (Graph.print_interface_function demo_ext demo_graph true fresh).isFatal = false :=
  ⟨(entry_fatal_iff_no_graph_output demo_ext demo_graph_nosink true fresh).1.mpr (by decide),
   by
    have h := (entry_fatal_iff_no_graph_output demo_ext demo_graph true fresh).1
    cases hf : (Graph.print_interface_function demo_ext demo_graph true fresh).isFatal with
    | false => rfl
    | true => exact absurd (h.mp hf) (by decide)⟩

/-- C11: for a tensor that passes the skip checks of `print_tensor` (`generate` set, a
non-empty name, a non-empty `data_dim`, a shape other than `[0]`) the output is exactly:
"static " if and only if `union_no < 0`; the tensor's declaration; if and only if
`initialize` is set, the optional " PROGMEM", then " = ", a newline and the initializer;
then ";" and a newline. " PROGMEM" is written if and only if `initialize`, `target_avr`
and `isConst` all hold: with all three it follows the declaration, with `initialize`
but not both others the declaration is followed by " = " at once, and without
`initialize` by ";" at once. Nothing is logged. -/
theorem rendered_tensor_text (ext : Externals) (opts : Options) (t : Tensor) (out : Out)
    (hg : t.generate = true) (hn : t.name ≠ "") (hd : t.data_dim ≠ [])
    (hz : t.data_dim ≠ [0]) :
    Graph.print_tensor ext opts t out
      = .ok ⟨out.dst ++ ((if t.union_no < 0 then "static " else "")
          ++ (ext.print_tensor t
            ++ (if t.initialize_ = true then
                  (if opts.target_avr = true ∧ t.isConst = true then " PROGMEM" else "")
                    ++ (" = " ++ endl) ++ ext.print_tensor_initializer t
                else "")
            ++ (";" ++ endl))), out.log⟩
    ∧ (t.initialize_ = true → opts.target_avr = true → t.isConst = true →
        Graph.print_tensor ext opts t out
          = .ok ⟨out.dst ++ ((if t.union_no < 0 then "static " else "")
              ++ (ext.print_tensor t ++ (" PROGMEM" ++ (" = " ++ endl)
                ++ ext.print_tensor_initializer t) ++ (";" ++ endl))), out.log⟩)
    ∧ (t.initialize_ = true → ¬ (opts.target_avr = true ∧ t.isConst = true) →
        Graph.print_tensor ext opts t out
          = .ok ⟨out.dst ++ ((if t.union_no < 0 then "static " else "")
              ++ (ext.print_tensor t ++ ((" = " ++ endl)
                ++ ext.print_tensor_initializer t) ++ (";" ++ endl))), out.log⟩)
    ∧ (t.initialize_ = false →
        Graph.print_tensor ext opts t out
          = .ok ⟨out.dst ++ ((if t.union_no < 0 then "static " else "")
              ++ (ext.print_tensor t ++ (";" ++ endl))), out.log⟩) := by
  have hnd : ¬ t.dimensionless := fun h => hd h.2.2
  have hns : ¬ t.skipped := by
    rintro (h | h | h)
    · rw [hg] at h; cases h
    · exact hn h
    · exact hz h
  have hw : warnings t = [] := by simp [warnings, hz]
  have key := print_tensor_ok ext opts t out hnd
  simp only [rendering, hns, if_false, hw, List.append_nil, declaration] at key
  refine ⟨key, ?_, ?_, ?_⟩
  · intro h1 h2 h3
    rw [key]
    simp only [h1, h2, h3, and_self, if_true]
  · intro h1 h2
    rw [key]
    simp only [h1, h2, if_true, if_false, String.empty_append]
  · intro h1
    rw [key]
    simp only [h1, Bool.false_eq_true, if_false, String.append_empty]

/-- C11 at the constant, initialized tensor `c` of the demo graph, on a microcontroller
target. -/
theorem rendered_tensor_text_witness :
    Graph.print_tensor demo_ext ⟨true⟩ demo_c fresh
      = .ok ⟨"static const float c[1] PROGMEM = \n\x7b0\x7d;\n", []⟩ := by
  rw [(rendered_tensor_text demo_ext ⟨true⟩ demo_c fresh rfl (by decide) (by decide)
    (by decide)).1]
  decide

/-- C12: for a graph with a node named "graph_output" (`n`), the body that
`print_interface_function` writes with `definition = true` is, between the braces, one
call statement "\tc_name( arguments);" for each node of `ns`, and what
`print_functions` writes on the same graph is one definition "FUNC_PREFIX void c_name( ..."
for each node of the same `ns`, where `ns` are the nodes whose `op_name` is not
"graph_io", in the order of the node list: the functions called are the functions
defined, each once, in the same order. -/
theorem entry_calls_defined_functions (ext : Externals) (g : Graph) (out : Out) (n : Node)
    (h : g.findNodeByName "graph_output" = some n) :
    ∃ (ns : List Node) (g' : Graph),
      ns = g.nodes.filter (fun m => decide (m.op_name ≠ "graph_io"))
      ∧ Graph.print_interface_function ext g true out
          = .ok (g', ⟨out.dst ++ (signature ext g n ++ (("\x7b" ++ endl)
              ++ String.join (ns.map fun m =>
                  ("\t" ++ ext.c_name m ++ "( ")
                    ++ ext.print_function_parameters_callsite g'.mem m ++ (");" ++ endl))
              ++ ("\x7d" ++ endl))), out.log⟩)
      ∧ Graph.print_functions ext g out
          = ⟨out.dst ++ String.join (ns.map fun m =>
              ("/*" ++ endl)
                ++ (" * Operand:           " ++ m.op_name ++ endl)
                ++ (" * Name in ONNX file: " ++ m.onnx_name ++ endl)
                ++ (" */" ++ endl)
                ++ "FUNC_PREFIX void "
                ++ (ext.c_name m ++ "( ")
                ++ ext.print_function_parameters_definition g.mem m
                ++ " )"
                ++ (endl ++ "\x7b" ++ endl)
                ++ ext.print g.mem m
                ++ ("\x7d" ++ endl ++ endl)), out.log⟩
      ∧ ns.Sublist g.nodes
      ∧ ∀ m ∈ g.nodes, (m ∈ ns ↔ m.op_name ≠ "graph_io") := by
  refine ⟨_, { g with mem := clearConsts g.mem n.outputs }, rfl, ?_, ?_,
    List.filter_sublist _, ?_⟩
  · rw [print_interface_function_ok ext g true out n h]
    simp only [Out.write, entry_tail, Bool.true_eq_false, if_false]
    rfl
  · rw [print_functions_eq]
    rfl
  · intro m hm
    simp [List.mem_filter, hm]

/-- C12 at the demo graph: its one computation node is called once in the body. -/
theorem entry_calls_defined_functions_witness :
    (Graph.print_interface_function demo_ext demo_graph true fresh).state.2.dst
      = "void entry(const float a[1], float c[1])\x7b\n\tnode_relu0( t0);\n\x7d\n"
    ∧ (Graph.print_functions demo_ext demo_graph fresh).dst
      = "/*\n * Operand:           Relu\n * Name in ONNX file: relu0\n */\n"
        ++ "FUNC_PREFIX void node_relu0( const float x[1], float y[1] )\n\x7b\n"
        ++ "\ty[0] = x[0];\n\x7d\n\n" := by
  obtain ⟨ns, g', hns, hb, hf, -⟩ :=
    entry_calls_defined_functions demo_ext demo_graph fresh demo_sink (by decide)
  subst hns
  rw [hb, hf]
  exact ⟨rfl, rfl⟩

set_option maxRecDepth 100000 in
/-- C13: what `print_includes` writes depends on the target flag only: for a generic
target it is the fixed text `generic_preamble` (five standard includes, the macros MAX,
MIN and CLIP, CLIP(X,L) being MAX(MIN(X,L), -L), and the conditional macro FUNC_PREFIX),
in which neither the program-memory include nor a program-memory macro occurs; for a
microcontroller target it is that same text followed by the line including
<avr/pgmspace.h> and the line defining RD_PROGMEM. The generic preamble is a strict
prefix of the microcontroller preamble. -/
theorem preamble_text (opts : Options) (out : Out) :
    Graph.print_includes opts out
      = ⟨out.dst ++ (if opts.target_avr = true then generic_preamble ++ avr_preamble
          else generic_preamble), out.log⟩
    ∧ (Graph.print_includes ⟨false⟩ fresh).dst = generic_preamble
    ∧ (Graph.print_includes ⟨true⟩ fresh).dst = generic_preamble ++ avr_preamble
    ∧ avr_preamble = ("#include <avr/pgmspace.h>" ++ endl)
        ++ ("#define RD_PROGMEM(x) pgm_read_byte(&(x));" ++ endl)
    ∧ avr_preamble ≠ ""
    ∧ occurs_in ("#define CLIP(X,L) ( MAX(MIN(X,L), -L) )" ++ endl) generic_preamble
    ∧ ¬ occurs_in "pgmspace" generic_preamble
    ∧ ¬ occurs_in "PROGMEM" generic_preamble
    ∧ ¬ occurs_in "pgm_" generic_preamble := by
  refine ⟨?_, ?_, ?_, ?_, ?_, ?_, ?_, ?_, ?_⟩
  · rw [print_includes_eq]
    cases opts with
    | mk avr => cases avr <;> simp
  · decide
  · decide
  · decide
  · decide
  · decide
  · decide
  · decide
  · decide

/-- C14: for a graph with `n` union groups, `print_global_tensors` raises its fatal
error if and only if a tensor of the list with `generate` set, a non-empty name and an
empty `data_dim` has `union_no < 0` or `0 <= union_no < n`; so a tensor with
`union_no >= n` cannot raise it. Such a tensor contributes nothing: with that entry
taken out of the tensor list, the emission is aborted or not as before and the same text
is written; it is among neither the standalone tensors nor the members of a union
`u < n`. -/
theorem out_of_range_union_ignored (ext : Externals) (opts : Options) (g : Graph)
    (out : Out) :
    ((Graph.print_global_tensors ext opts g out).isFatal = true
      ↔ ∃ p ∈ g.tensors, ((g.mem p).generate = true ∧ (g.mem p).name ≠ ""
          ∧ (g.mem p).data_dim = [])
        ∧ ((g.mem p).union_no < 0
          ∨ (0 ≤ (g.mem p).union_no ∧ (g.mem p).union_no < (g.tensor_unions.length : Int))))
    ∧ (∀ (pre post : List Nat) (p : Nat), g.tensors = pre ++ p :: post →
        (g.tensor_unions.length : Int) ≤ (g.mem p).union_no →
        (Graph.print_global_tensors ext opts g out).isFatal
          = (Graph.print_global_tensors ext opts { g with tensors := pre ++ post } out).isFatal
        ∧ (Graph.print_global_tensors ext opts g out).state.dst
          = (Graph.print_global_tensors ext opts { g with tensors := pre ++ post }
              out).state.dst)
    ∧ (∀ p, (g.tensor_unions.length : Int) ≤ (g.mem p).union_no →
        p ∉ g.standalone ∧ ∀ u, u < g.tensor_unions.length → p ∉ g.members u)
    ∧ ((Graph.print_global_tensors ext opts g out).isFatal = false →
        (Graph.print_global_tensors ext opts g out).state.dst
          = out.dst ++ standalone_section ext opts g ++ union_section ext opts g) := by
  refine ⟨?_, ?_, ?_, ?_⟩
  · rw [print_global_tensors_fatal_iff]
    unfold Graph.dimensioned
    push_neg
    constructor
    · rintro ⟨p, hp, h1, h2, h3, h4⟩
      refine ⟨p, hp, ⟨h1, h2, h4⟩, ?_⟩
      by_cases h0 : (g.mem p).union_no < 0
      · exact Or.inl h0
      · exact Or.inr ⟨not_lt.mp h0, h3⟩
    · rintro ⟨p, hp, ⟨h1, h2, h4⟩, h0 | ⟨-, h3⟩⟩
      · exact ⟨p, hp, h1, h2, lt_of_lt_of_le h0 (Int.ofNat_nonneg _), h4⟩
      · exact ⟨p, hp, h1, h2, h3, h4⟩
  · intro pre post p ht hu
    exact print_global_tensors_same_remove ext opts g pre post p ht hu out
  · intro p hu
    have h0 : (0 : Int) ≤ (g.tensor_unions.length : Int) := Int.ofNat_nonneg _
    constructor
    · simp only [Graph.standalone, List.mem_filter, decide_eq_true_eq, not_and]
      intro _ _ _ hlt
      omega
    · intro u hlt
      simp only [Graph.members, List.mem_filter, decide_eq_true_eq, not_and]
      intro _ heq
      have : (u : Int) < (g.tensor_unions.length : Int) := by exact_mod_cast hlt
      omega
  · intro hnf
    have hd : g.dimensioned := by
      by_contra hnd
      rw [(print_global_tensors_fatal_iff ext opts g out).mpr hnd] at hnf
      cases hnf
    obtain ⟨o, e, d⟩ := print_global_tensors_ok ext opts g hd out
    rw [e]
    exact d

/-- C14 at the demo graph with a generated, named tensor without dimensions in its
list whose union, 5, does not exist: no error, and the text of the demo graph. -/
theorem out_of_range_union_ignored_witness :
    (Graph.print_global_tensors demo_ext ⟨false⟩ demo_graph_far fresh).isFatal = false
    ∧ (Graph.print_global_tensors demo_ext ⟨false⟩ demo_graph_far fresh).state.dst
      = (Graph.print_global_tensors demo_ext ⟨false⟩
          { demo_graph_far with tensors := [0] ++ [1, 3, 2] } fresh).state.dst := by
  have h := (out_of_range_union_ignored demo_ext ⟨false⟩ demo_graph_far fresh).2.1
    [0] [1, 3, 2] 9 rfl (by decide)
  refine ⟨?_, h.2⟩
  rw [h.1]
  decide

/-- The claim C15 as stated fails: the graph has two union groups, but a member of
union 0 is generated, named and without dimensions, so `print_global_tensors` is
aborted after the opening line of the first block: no block is closed, no instance is
declared, and the block of union 1 is not begun. -/
theorem aborted_run_lacks_blocks :
    demo_graph_broken.tensor_unions.length = 2
    ∧ (Graph.print_global_tensors demo_ext ⟨false⟩ demo_graph_broken fresh).isFatal = true
    ∧ (Graph.print_global_tensors demo_ext ⟨false⟩ demo_graph_broken fresh).state.dst
      = "static float a[1];\nstatic const float c[1] = \n\x7b0\x7d;\n"
        ++ "union tensor_union_0 \x7b\n" := by
  decide

/-- C15, amended: when no tensor that `print_global_tensors` passes on to `print_tensor`
is generated, named and without dimensions, `print_global_tensors` returns and the
union blocks it writes are exactly those of `u = 0, ..., n-1`, `n` the length of the
union-group list, one each, whatever else the tensors are: the block of `u` is the
opening line, what `print_tensor` writes for the tensors whose `union_no` is `u`, in the
order of the tensor list, the closing line and the instance declaration; for a union
none of whose members produces output (no tensor has its index, or each that has is
not generated, has no name or is of shape `[0]`) that is the opening line, the closing
line and the instance declaration with nothing between. When there is such a tensor,
`print_global_tensors` raises the fatal error and does not return. -/
theorem union_block_count (ext : Externals) (opts : Options) (g : Graph) (out : Out) :
    (g.dimensioned →
      ∃ (out' : Out) (blocks : List String),
        blocks = (List.range g.tensor_unions.length).map (fun (u : Nat) =>
          union_open u
            ++ String.join
                ((g.tensors.filter fun p => decide ((g.mem p).union_no = (u : Int))).map
                  fun p => written ext opts (g.mem p))
            ++ union_close u)
        ∧ Graph.print_global_tensors ext opts g out = .ok out'
        ∧ out'.dst = out.dst ++ standalone_section ext opts g ++ String.join blocks
        ∧ blocks.length = g.tensor_unions.length
        ∧ (∀ u, (hu : u < blocks.length) →
            (∀ p ∈ g.tensors, (g.mem p).union_no = (u : Int) → (g.mem p).skipped) →
            blocks.get ⟨u, hu⟩ = union_open u ++ union_close u))
    ∧ (¬ g.dimensioned →
        (Graph.print_global_tensors ext opts g out).isFatal = true) := by
  refine ⟨?_, (print_global_tensors_fatal_iff ext opts g out).mpr⟩
  intro h
  obtain ⟨o, e, d⟩ := print_global_tensors_ok ext opts g h out
  refine ⟨o, _, rfl, e, ?_, by simp, ?_⟩
  · rw [d, union_section]
    congr 2
    apply List.map_congr_left
    intro u hu
    have hu' : u < g.tensor_unions.length := List.mem_range.mp hu
    have hw : ((g.members u).map fun p => rendering ext opts (g.mem p))
        = (g.tensors.filter fun p => decide ((g.mem p).union_no = (u : Int))).map
            fun p => written ext opts (g.mem p) := by
      unfold Graph.members
      apply List.map_congr_left
      intro p hp
      simp only [List.mem_filter, decide_eq_true_eq] at hp
      symm
      apply written_eq
      rintro ⟨h1, h2, h3⟩
      exact h p hp.1 h1 h2 (by rw [hp.2]; exact_mod_cast hu') h3
    simp only [union_block, hw, union_open, union_close, String.append_assoc]
  · intro u hu hs
    have hw : ((g.tensors.filter fun p => decide ((g.mem p).union_no = (u : Int))).map
        fun p => written ext opts (g.mem p))
        = (g.tensors.filter fun p => decide ((g.mem p).union_no = (u : Int))).map
            fun _ => "" := by
      apply List.map_congr_left
      intro p hp
      simp only [List.mem_filter, decide_eq_true_eq] at hp
      have hsk := hs p hp.1 hp.2
      have hnd : ¬ (g.mem p).dimensionless := by
        rintro ⟨h1, h2, h3⟩
        rcases hsk with h' | h' | h'
        · rw [h1] at h'; cases h'
        · exact h2 h'
        · rw [h3] at h'; cases h'
      rw [written_eq ext opts _ hnd]
      simp [rendering, hsk]
    have hj : ∀ l : List Nat, String.join (l.map fun _ => "") = "" := by
      intro l
      induction l with
      | nil => rfl
      | cons a l ih => rw [List.map_cons, join_cons, ih]; rfl
    simp only [List.get_eq_getElem, List.getElem_map, List.getElem_range, hw, hj,
      String.append_empty]

set_option maxRecDepth 100000 in
/-- C15, amended, at the demo graph with a second union, without members, and a third,
whose one member is not generated: three blocks, two of them empty; and at the demo
graph with a dimensionless member of union 0: the error. -/
theorem union_block_count_witness :
    demo_graph_empty_unions.dimensioned
    ∧ (∃ (out' : Out) (blocks : List String),
        Graph.print_global_tensors demo_ext ⟨false⟩ demo_graph_empty_unions fresh = .ok out'
        ∧ out'.dst = fresh.dst ++ standalone_section demo_ext ⟨false⟩ demo_graph_empty_unions
            ++ String.join blocks
        ∧ blocks = ["union tensor_union_0 \x7b\nfloat b[1];\n\x7d;\nstatic union tensor_union_0 tu0;\n\n",
            "union tensor_union_1 \x7b\n\x7d;\nstatic union tensor_union_1 tu1;\n\n",
            "union tensor_union_2 \x7b\n\x7d;\nstatic union tensor_union_2 tu2;\n\n"])
    ∧ (Graph.print_global_tensors demo_ext ⟨false⟩ demo_graph_empty_unions fresh).state.dst
      = "static float a[1];\nstatic const float c[1] = \n\x7b0\x7d;\n"
        ++ "union tensor_union_0 \x7b\nfloat b[1];\n\x7d;\nstatic union tensor_union_0 tu0;\n\n"
        ++ "union tensor_union_1 \x7b\n\x7d;\nstatic union tensor_union_1 tu1;\n\n"
        ++ "union tensor_union_2 \x7b\n\x7d;\nstatic union tensor_union_2 tu2;\n\n"
    ∧ (Graph.print_global_tensors demo_ext ⟨false⟩ demo_graph_broken fresh).isFatal = true := by
  have hd : demo_graph_empty_unions.dimensioned := by
    intro p hp
    simp only [demo_graph_empty_unions, demo_graph, List.mem_cons, List.mem_singleton,
      List.not_mem_nil, or_false] at hp
    rcases hp with rfl | rfl | rfl | rfl | rfl <;> decide
  have hb : ¬ demo_graph_broken.dimensioned := by
    intro hc
    exact absurd rfl (hc 9 (by decide) rfl (by decide) (by decide))
  obtain ⟨o, blocks, hblocks, e, d, -, -⟩ :=
    (union_block_count demo_ext ⟨false⟩ demo_graph_empty_unions fresh).1 hd
  refine ⟨hd, ⟨o, blocks, e, d, ?_⟩, by decide,
    (union_block_count demo_ext ⟨false⟩ demo_graph_broken fresh).2 hb⟩
  rw [hblocks]
  decide

end toC
